import Mathlib

/-!
# butterfs: view state and orchestration of the snapshot dashboard

A shallow embedding of `src/ui/views.go`, `src/ui/ui.go` and `src/ui/btrfs.go`.

* Go strings are Lean `String`s. Every separator the program splits on is an
  ASCII character, so splitting the character sequence gives the same pieces
  as splitting the bytes.
* Go `int` is `Int`: the only arithmetic is `len(items) - 1`, `selected--`
  (when positive) and `selected++` (below the length), none of which can
  overflow 64 bits.
* An index out of range makes the Go program panic; a function that can
  panic returns `Option`, with `none` for the panic.
* External processes (`exec.Command`) are an oracle `Env` whose answers may
  depend on every command run so far; the commands run are recorded in the
  state, in order. The reading of the clock (`time.Now()`) is an argument of
  the call of a bound function: it is the instant at which that function runs.
* The toolkit (gocui) is a record of the views that exist, the toolkit's
  current view and the key bindings; closures bound to keys are values of
  `Handler`.
-/

namespace Butterfs

/-! ## Package `strings` -/

/-- Pieces of a character sequence between occurrences of `sep`:
`strings.Split` for a one-character separator, on the characters. -/
def splitChars (sep : Char) : List Char → List (List Char)
  | [] => [[]]
  | c :: cs =>
    if c = sep then [] :: splitChars sep cs
    else
      match splitChars sep cs with
      | [] => [[c]]
      | p :: ps => (c :: p) :: ps

/-- Go `strings.Split(s, sep)` for a one-character separator. -/
def split (s : String) (sep : Char) : List String :=
  (splitChars sep s.data).map String.mk

/-- The text after the first occurrence of `sep`, when there is one. -/
def afterFirst (sep : Char) : List Char → Option (List Char)
  | [] => none
  | c :: cs => if c = sep then some cs else afterFirst sep cs

/-! ## `ViewData` (views.go) -/

/-- The list shown in a pane and its cursor: `ViewData` of views.go. -/
structure ViewData where
  items : List String
  selected : Int
deriving DecidableEq, Repr

/-- The constructor `NewViewData`. -/
def NewViewData : ViewData := { items := [], selected := 0 }

namespace ViewData

/-- The method `SetItems` (views.go 25-33). -/
def SetItems (vd : ViewData) (items : List String) : ViewData :=
  let vd1 : ViewData := { vd with items := items }
  let vd2 : ViewData :=
    if vd1.selected ≥ (items.length : Int) then
      { vd1 with selected := (items.length : Int) - 1 }
    else vd1
  if vd2.selected < 0 then { vd2 with selected := 0 } else vd2

/-- The method `MoveUp` (views.go 36-40). -/
def MoveUp (vd : ViewData) : ViewData :=
  if vd.selected > 0 then { vd with selected := vd.selected - 1 } else vd

/-- The method `MoveDown` (views.go 43-47). -/
def MoveDown (vd : ViewData) : ViewData :=
  if vd.selected < (vd.items.length : Int) - 1 then
    { vd with selected := vd.selected + 1 }
  else vd

/-- Go indexing `items[i]`: `none` stands for the out-of-range panic. -/
def index (items : List String) (i : Int) : Option String :=
  if 0 ≤ i then items.get? i.toNat else none

/-- The method `GetSelected` (views.go 50-55); `none` is the panic of an
index out of range. -/
def GetSelected (vd : ViewData) : Option String :=
  if vd.items.length = 0 then some "" else index vd.items vd.selected

/-- The invariant of a list: on a non-empty list the cursor is an index of
the list. -/
abbrev Valid (vd : ViewData) : Prop :=
  vd.items ≠ [] → 0 ≤ vd.selected ∧ vd.selected < (vd.items.length : Int)

end ViewData

/-! ## Group key (inlined at views.go 157-159, 164-166 and ui.go 371-375) -/

/-- The base name of a path as both call sites compute it:
`parts := strings.Split(path, "/")`, and when `len(parts) > 1` the result is
`strings.Split(parts[1], "-")[0]`; `none` when `len(parts) < 2`.
`strings.Split` never returns an empty slice, so `[0]` cannot fail. -/
def groupKey (path : String) : Option String :=
  match split path '/' with
  | _ :: p1 :: _ => some ((split p1 '-').headD "")
  | _ => none

/-- The group key in the words of the specification: the substring between
the first `/` and the next `-` after it, or the end of the string; no key
when the path has no `/`. -/
def groupKeySpec (path : String) : Option String :=
  (afterFirst '/' path.data).map fun rest =>
    String.mk (rest.takeWhile fun c => c != '-')

/-- The specification's wording with one change: the key also stops at the
next `/`. -/
def groupKeySegment (path : String) : Option String :=
  (afterFirst '/' path.data).map fun rest =>
    String.mk (rest.takeWhile fun c => c != '-' && c != '/')

/-- The filtering loop of `UpdateViewContent` (views.go 162-171): the
snapshots are visited in order and appended when they have a second segment
whose base equals `subvolBase`. -/
def filterSnapshots (subvolBase : String) (snapshots : List String) : List String :=
  snapshots.foldl
    (fun filtered snap =>
      match groupKey snap with
      | some snapBase => if snapBase = subvolBase then filtered ++ [snap] else filtered
      | none => filtered)
    []

/-! ## More of package `strings` -/

/-- Go `unicode.IsSpace`. -/
def isSpace (c : Char) : Bool :=
  let n := c.toNat
  n = 0x09 || n = 0x0A || n = 0x0B || n = 0x0C || n = 0x0D || n = 0x20 ||
  n = 0x85 || n = 0xA0 || n = 0x1680 || (0x2000 ≤ n && n ≤ 0x200A) ||
  n = 0x2028 || n = 0x2029 || n = 0x202F || n = 0x205F || n = 0x3000

/-- Go `strings.TrimSpace`. -/
def TrimSpace (s : String) : String :=
  String.mk ((s.data.dropWhile isSpace).rdropWhile isSpace)

/-- Go `strings.HasPrefix`. -/
def HasPrefix (s pre : String) : Bool :=
  pre.data.isPrefixOf s.data

/-- The text after the first occurrence of `pat`; `none` when `pat` does not
occur. For a line that contains `pat` this is `line[strings.Index(line, pat) +
len(pat):]`, and `none` is `!strings.Contains(line, pat)`. -/
def afterFirstSub (pat : List Char) : List Char → Option (List Char)
  | [] => if pat.isEmpty then some [] else none
  | c :: cs =>
    if pat.isPrefixOf (c :: cs) then some ((c :: cs).drop pat.length)
    else afterFirstSub pat cs

/-- Worker of `Fields`: `cur` is the current field, reversed. -/
def fieldsAux : List Char → List Char → List (List Char)
  | [], cur => if cur.isEmpty then [] else [cur.reverse]
  | c :: cs, cur =>
    if isSpace c then
      if cur.isEmpty then fieldsAux cs [] else cur.reverse :: fieldsAux cs []
    else fieldsAux cs (c :: cur)

/-- Go `strings.Fields`. -/
def Fields (s : String) : List String :=
  (fieldsAux s.data []).map String.mk

/-! ## The outside world -/

/-- An external process: `exec.Command(name, args...)`. -/
structure Cmd where
  name : String
  args : List String
deriving DecidableEq, Repr

/-- A wall-clock reading, as `time.Now()` breaks it down. -/
structure Time where
  year : Nat
  month : Nat
  day : Nat
  hour : Nat
  minute : Nat
  second : Nat
deriving DecidableEq, Repr

/-- What the program cannot decide about external processes: the outcome of
each one (its output, or the text of its error), which may depend on every
command run before. -/
structure Env where
  run : List Cmd → Cmd → Except String String

/-- The package variables: `defaultBtrfsPath` (ui.go 12) and the two prefixes
(btrfs.go 9-12), fixed before the interface starts. -/
structure Config where
  defaultBtrfsPath : String
  subvolumePrefix : String
  snapshotPrefix : String
deriving DecidableEq, Repr

/-- The initial values of the prefixes (btrfs.go 10-11). -/
def defaultConfig (btrfsPath : String) : Config :=
  { defaultBtrfsPath := btrfsPath, subvolumePrefix := "_active", snapshotPrefix := "_snapshots" }

/-- Decimal digits of `n`, zero-padded on the left to `width`: the
standard library's `appendInt`. -/
def appendInt (n width : Nat) : String :=
  let d := Nat.repr n
  String.mk (List.replicate (width - d.length) '0') ++ d

/-- Go `t.Format("20060102-150405")`. -/
def Time.Format (t : Time) : String :=
  appendInt t.year 4 ++ appendInt t.month 2 ++ appendInt t.day 2 ++ "-" ++
    appendInt t.hour 2 ++ appendInt t.minute 2 ++ appendInt t.second 2

/-- The decimal digit of the units of `n`, as a character. -/
def digit (n : Nat) : Char := Char.ofNat (48 + n % 10)

/-- The timestamp in the words of the specification, `YYYYMMDD-HHMMSS`: the
year in four digits, the month and the day in two digits each, a `-`, and the
hour on the 24-hour clock, the minute and the second in two digits each. -/
def timestampSpec (t : Time) : String :=
  String.mk
    [digit (t.year / 1000), digit (t.year / 100), digit (t.year / 10), digit t.year,
      digit (t.month / 10), digit t.month, digit (t.day / 10), digit t.day, '-',
      digit (t.hour / 10), digit t.hour, digit (t.minute / 10), digit t.minute,
      digit (t.second / 10), digit t.second]

/-! ## The gateway (btrfs.go) -/

/-- The loop of `GetBtrfsSubvolumes` over the output of the listing
(btrfs.go 22-43). -/
def parseSubvolumes (cfg : Config) (output : String) : List String × List String :=
  (split output '\n').foldl
    (fun (acc : List String × List String) line =>
      if TrimSpace line = "" then acc
      else
        match afterFirstSub "path ".data line.data with
        | none => acc
        | some rest =>
          let path := TrimSpace (String.mk rest)
          if HasPrefix path (cfg.subvolumePrefix ++ "/") then (acc.1 ++ [path], acc.2)
          else if HasPrefix path (cfg.snapshotPrefix ++ "/") then (acc.1, acc.2 ++ [path])
          else acc)
    ([], [])

/-- The command of `GetBtrfsSubvolumes`. -/
def listCmd (path : String) : Cmd := ⟨"btrfs", ["subvolume", "list", path]⟩

/-- The function `GetBtrfsSubvolumes` (btrfs.go 15-44); the second component
is the record of commands run. -/
def GetBtrfsSubvolumes (cfg : Config) (env : Env) (path : String) (calls : List Cmd) :
    Except String (List String × List String) × List Cmd :=
  match env.run calls (listCmd path) with
  | .error err => (.error err, calls ++ [listCmd path])
  | .ok output => (.ok (parseSubvolumes cfg output), calls ++ [listCmd path])

/-- The command of `GetDiskInfo`. -/
def dfCmd (path : String) : Cmd := ⟨"df", ["-h", path]⟩

/-- The function `GetDiskInfo` (btrfs.go 47-69). -/
def GetDiskInfo (env : Env) (path : String) (calls : List Cmd) :
    Except String String × List Cmd :=
  match env.run calls (dfCmd path) with
  | .error err => (.error err, calls ++ [dfCmd path])
  | .ok output =>
    let lines := split output '\n'
    if lines.length < 2 then (.ok "", calls ++ [dfCmd path])
    else
      let fields := Fields (lines.getD 1 "")
      if fields.length < 6 then (.ok "", calls ++ [dfCmd path])
      else
        (.ok ("FS: " ++ fields.getD 0 "" ++ "  Size: " ++ fields.getD 1 "" ++
            "  Used: " ++ fields.getD 2 "" ++ " (" ++ fields.getD 4 "" ++
            ")  Avail: " ++ fields.getD 3 ""),
          calls ++ [dfCmd path])

/-- The command of `GetBtrfsSnapshotInfo`. -/
def showCmd (snapshotPath : String) : Cmd := ⟨"btrfs", ["subvolume", "show", snapshotPath]⟩

/-- The function `GetBtrfsSnapshotInfo` (btrfs.go 72-80). -/
def GetBtrfsSnapshotInfo (env : Env) (snapshotPath : String) (calls : List Cmd) :
    Except String String × List Cmd :=
  (env.run calls (showCmd snapshotPath), calls ++ [showCmd snapshotPath])

/-- The command of `CreateSnapshot`. -/
def snapshotCmd (subvolumePath snapshotPath : String) : Cmd :=
  ⟨"btrfs", ["subvolume", "snapshot", subvolumePath, snapshotPath]⟩

/-- The function `CreateSnapshot` (btrfs.go 83-89): `none` is success. -/
def CreateSnapshot (env : Env) (subvolumePath snapshotPath : String) (calls : List Cmd) :
    Option String × List Cmd :=
  match env.run calls (snapshotCmd subvolumePath snapshotPath) with
  | .error err =>
    (some ("failed to create snapshot: " ++ err),
      calls ++ [snapshotCmd subvolumePath snapshotPath])
  | .ok _ => (none, calls ++ [snapshotCmd subvolumePath snapshotPath])

/-- The command of `DeleteSnapshot`. -/
def deleteCmd (snapshotPath : String) : Cmd := ⟨"btrfs", ["subvolume", "delete", snapshotPath]⟩

/-- The function `DeleteSnapshot` (btrfs.go 92-98): `none` is success. -/
def DeleteSnapshot (env : Env) (snapshotPath : String) (calls : List Cmd) :
    Option String × List Cmd :=
  match env.run calls (deleteCmd snapshotPath) with
  | .error err =>
    (some ("failed to delete snapshot: " ++ err), calls ++ [deleteCmd snapshotPath])
  | .ok _ => (none, calls ++ [deleteCmd snapshotPath])

/-- The function `ExecuteCommand` (btrfs.go 101-108). -/
def ExecuteCommand (env : Env) (name : String) (args : List String) (calls : List Cmd) :
    Except String String × List Cmd :=
  match env.run calls ⟨name, args⟩ with
  | .error err => (.error ("failed to execute command: " ++ err), calls ++ [⟨name, args⟩])
  | .ok output => (.ok output, calls ++ [⟨name, args⟩])

/-- The function `ExecuteBtrfsBalance` (btrfs.go 111-113). -/
def ExecuteBtrfsBalance (env : Env) (path : String) (calls : List Cmd) :
    Except String String × List Cmd :=
  ExecuteCommand env "btrfs" ["balance", "start", "-dusage=15", path] calls

/-! ## The toolkit -/

/-- Error values of the toolkit. -/
def ErrUnknownView : String := "unknown view"

/-- The error a handler returns to leave the main loop. -/
def ErrQuit : String := "quit"

/-- A pane: its name, title, highlight flag and the text written to it. -/
structure View where
  name : String
  title : String
  highlight : Bool
  buffer : String
deriving DecidableEq, Repr

/-- The keys the program binds. -/
inductive Key where
  | rune (c : Char)
  | arrowLeft
  | arrowRight
  | arrowUp
  | arrowDown
  | enter
deriving DecidableEq, Repr

/-- The three closures passed to `showConfirmationDialog` as `confirmAction`,
with the variables each one captures. -/
inductive Action where
  /-- The closure of `executeBtrfsBalance` (ui.go 184-190). -/
  | balance
  /-- The closure of `deleteSnapshot` (ui.go 345-357). -/
  | delete (selectedSnapshot : String)
  /-- The closure of `createSnapshot` (ui.go 381-396). -/
  | create (selectedSubvol subvolBase : String)
deriving DecidableEq, Repr

/-- The functions bound to keys: the methods named in `setKeyBindings` and the
closures bound by the two dialog functions. -/
inductive Handler where
  | quit
  | createSnapshot
  | deleteSnapshot
  | prevView
  | nextView
  | moveUp
  | moveDown
  | updateGrub
  | executeBtrfsBalance
  /-- The Enter closure of `showDialog` (ui.go 459-461). -/
  | dialogClose
  /-- The Enter closure of `showConfirmationDialog` (ui.go 493-496). -/
  | confirmEnter (confirmAction : Action)
  /-- The `c` closure of `showConfirmationDialog` (ui.go 502-504). -/
  | confirmCancel
deriving DecidableEq, Repr

/-- One entry of the toolkit's key-binding table; the view name `""` is a
global binding. -/
structure Keybinding where
  viewName : String
  key : Key
  handler : Handler
deriving DecidableEq, Repr

/-- The toolkit's state: the views in creation order, the name of its
current view and the key bindings in the order they were set. -/
structure Gui where
  views : List View
  currentView : Option String
  keybindings : List Keybinding
deriving DecidableEq, Repr

namespace Gui

/-- The toolkit's `View(name)`: `none` is `ErrUnknownView`. -/
def View (g : Gui) (name : String) : Option Butterfs.View :=
  g.views.find? fun v => v.name = name

/-- A change made through a view pointer. -/
def modify (g : Gui) (name : String) (f : Butterfs.View → Butterfs.View) : Gui :=
  { g with views := g.views.map fun v => if v.name = name then f v else v }

/-- The toolkit's `SetView(name, ...)`: an existing view is kept (`err == nil`),
otherwise a fresh one is appended and `ErrUnknownView` reported, which is the
flag returned here. Positions are not modelled. -/
def SetView (g : Gui) (name : String) : Gui × Bool :=
  match g.View name with
  | some _ => (g, false)
  | none =>
    ({ g with views := g.views ++ [{ name := name, title := "", highlight := false, buffer := "" }] },
      true)

/-- The toolkit's `SetCurrentView(name)`: `none` is `ErrUnknownView`. -/
def SetCurrentView (g : Gui) (name : String) : Option Gui :=
  match g.View name with
  | some _ => some { g with currentView := some name }
  | none => none

/-- The toolkit's `DeleteView(name)`; its only error is `ErrUnknownView`, which
the caller ignores. The current-view pointer is left as it is. -/
def DeleteView (g : Gui) (name : String) : Gui :=
  { g with views := g.views.filter fun v => v.name ≠ name }

/-- The toolkit's `SetKeybinding`. -/
def SetKeybinding (g : Gui) (viewName : String) (key : Key) (handler : Handler) : Gui :=
  { g with keybindings := g.keybindings ++ [⟨viewName, key, handler⟩] }

/-- Removal of the first element satisfying `p`. -/
def eraseFirst (p : Keybinding → Bool) : List Keybinding → List Keybinding
  | [] => []
  | kb :: kbs => if p kb then kbs else kb :: eraseFirst p kbs

/-- The toolkit's `DeleteKeybinding`: the first binding of that view and key
is removed. -/
def DeleteKeybinding (g : Gui) (viewName : String) (key : Key) : Gui :=
  { g with keybindings := eraseFirst (fun kb => kb.viewName = viewName ∧ kb.key = key) g.keybindings }

/-- `v.Clear()` on the view of that name. -/
def Clear (g : Gui) (name : String) : Gui :=
  g.modify name fun v => { v with buffer := "" }

/-- `fmt.Fprint(v, text)` on the view of that name. -/
def Fprint (g : Gui) (name : String) (text : String) : Gui :=
  g.modify name fun v => { v with buffer := v.buffer ++ text }

end Gui

/-! ## The interface (ui.go, views.go) -/

/-- Name of the disk information view (ui.go 25). -/
def viewDiskInfo : String := "diskInfo"

/-- Name of the volumes pane (ui.go 26). -/
def viewSubvolumes : String := "subvolumes"

/-- Name of the snapshots pane (ui.go 27). -/
def viewSnapshots : String := "snapshots"

/-- Name of the snapshot information view (ui.go 28). -/
def viewSnapshotInfo : String := "snapshotInfo"

/-- Name of the hotkey legend (ui.go 29). -/
def viewHotkeys : String := "hotkeys"

/-- Name of the dialog view (ui.go 30). -/
def viewDialog : String := "dialog"

/-- The struct `UI` (ui.go 33-38), with the record of the external commands
run so far. -/
structure UI where
  gui : Gui
  currentView : String
  subvolumesData : ViewData
  snapshotsData : ViewData
  calls : List Cmd
deriving DecidableEq, Repr

/-- What a key handler gives back: the state it leaves and the `error` it
returns (`none` is `nil`). -/
abbrev Result := UI × Option String

/-- The lines `Render` writes (views.go 73-82). -/
def ViewData.lines (vd : ViewData) : String :=
  String.intercalate "\n"
    (vd.items.enum.map fun p => (if (p.1 : Int) = vd.selected then ">" else " ") ++ p.2)

/-- The method `Render` (views.go 58-86) on the view of that name: the
buffer is cleared and the lines written. Scroll origin and cursor position of
the view are not modelled. -/
def Render (vd : ViewData) (g : Gui) (name : String) : Gui :=
  (g.Clear name).Fprint name vd.lines

namespace UI

/-- The method `isDialogVisible` (ui.go 194-197). -/
def isDialogVisible (ui : UI) : Bool :=
  (ui.gui.View viewDialog).isSome

/-- The method `updateHotkeys` (ui.go 400-430). -/
def updateHotkeys (ui : UI) : UI :=
  match ui.gui.View viewHotkeys with
  | none => ui
  | some _ =>
    let g := ui.gui.Clear viewHotkeys
    match g.View viewDialog with
    | some dialogView =>
      if dialogView.title = "GRUB Update" then
        { ui with gui := g.Fprint viewHotkeys "Enter: Close" }
      else
        { ui with gui := g.Fprint viewHotkeys "Enter: Execute | c: Cancel" }
    | none =>
      let baseHotkeys :=
        "q: Quit | ←/→: Switch view | ↑/↓: Navigate | g: Update GRUB | b: Btrfs balance"
      if ui.currentView = viewSubvolumes then
        { ui with gui := g.Fprint viewHotkeys (baseHotkeys ++ " | t: Create snapshot") }
      else if ui.currentView = viewSnapshots then
        { ui with gui := g.Fprint viewHotkeys (baseHotkeys ++ " | r: Remove snapshot") }
      else
        { ui with gui := g.Fprint viewHotkeys baseHotkeys }

/-- The method `updateSnapshotInfo` (views.go 89-129); `none` is the panic of
`items[selected]` out of range. -/
def updateSnapshotInfo (cfg : Config) (env : Env) (ui : UI) : Option UI :=
  if ui.currentView ≠ viewSnapshots then
    match ui.gui.View viewSnapshotInfo with
    | none => some ui
    | some _ => some { ui with gui := ui.gui.Clear viewSnapshotInfo }
  else
    match ui.gui.View viewSnapshotInfo with
    | none => some ui
    | some _ =>
      let g := ui.gui.Clear viewSnapshotInfo
      match GetBtrfsSubvolumes cfg env cfg.defaultBtrfsPath ui.calls with
      | (.error err, calls) =>
        some { ui with
          gui := g.Fprint viewSnapshotInfo ("Error getting snapshots: " ++ err), calls := calls }
      | (.ok (_, snapshots), calls) =>
        if snapshots.length = 0 then some { ui with gui := g, calls := calls }
        else if ui.snapshotsData.items.length > 0 then
          match ViewData.index ui.snapshotsData.items ui.snapshotsData.selected with
          | none => none
          | some selectedSnapshot =>
            let fullPath := cfg.defaultBtrfsPath ++ "/" ++ selectedSnapshot
            match GetBtrfsSnapshotInfo env fullPath calls with
            | (.error err, calls2) =>
              some { ui with
                gui := g.Fprint viewSnapshotInfo ("Error getting snapshot info: " ++ err),
                calls := calls2 }
            | (.ok info, calls2) =>
              some { ui with
                gui := g.Fprint viewSnapshotInfo ("Snapshot information:\n" ++ info),
                calls := calls2 }
        else some { ui with gui := g, calls := calls }

/-- Lines 144-148 of `UpdateViewContent`: the volume list is replaced by the
listing and rendered when its view exists. -/
def updateSubvolumes (ui : UI) (subvolumes : List String) : UI :=
  let sv := ui.subvolumesData.SetItems subvolumes
  match ui.gui.View viewSubvolumes with
  | some _ => { ui with subvolumesData := sv, gui := Render sv ui.gui viewSubvolumes }
  | none => { ui with subvolumesData := sv }

/-- Lines 150-187 of `UpdateViewContent`: the snapshot list is recomputed
from the listing when the snapshots view exists, the cursor of the volume
list is inside the listing and the selected volume has a second segment. -/
def updateSnapshots (ui : UI) (subvolumes snapshots : List String) : UI :=
  match ui.gui.View viewSnapshots with
  | none => ui
  | some _ =>
    let selectedSubvol := ui.subvolumesData.selected
    if 0 ≤ selectedSubvol ∧ selectedSubvol < (subvolumes.length : Int) then
      match ViewData.index subvolumes selectedSubvol with
      | none => ui
      | some subvolName =>
        match groupKey subvolName with
        | none => ui
        | some subvolBase =>
          let filteredSnapshots := filterSnapshots subvolBase snapshots
          let currentSelection := ui.snapshotsData.selected
          let sd := ui.snapshotsData.SetItems filteredSnapshots
          let sd2 : ViewData :=
            if 0 ≤ currentSelection ∧ currentSelection < (filteredSnapshots.length : Int) then
              { sd with selected := currentSelection }
            else sd
          { ui with snapshotsData := sd2, gui := Render sd2 ui.gui viewSnapshots }
    else ui

/-- Lines 188-196 of `UpdateViewContent`: the disk information. -/
def updateDiskInfo (cfg : Config) (env : Env) (ui : UI) : UI :=
  match ui.gui.View viewDiskInfo with
  | none => ui
  | some _ =>
    match GetDiskInfo env cfg.defaultBtrfsPath ui.calls with
    | (.error err, calls) =>
      { ui with gui := ui.gui.Fprint viewDiskInfo ("Error getting disk info: " ++ err), calls := calls }
    | (.ok diskInfo, calls) =>
      { ui with gui := ui.gui.Fprint viewDiskInfo (diskInfo ++ "\n"), calls := calls }

/-- The method `UpdateViewContent` (views.go 132-200); `none` is a panic. -/
def UpdateViewContent (cfg : Config) (env : Env) (ui : UI) : Option UI :=
  match GetBtrfsSubvolumes cfg env cfg.defaultBtrfsPath ui.calls with
  | (.error err, calls) =>
    match ui.gui.View viewSubvolumes with
    | some _ =>
      some { ui with
        gui := (ui.gui.Clear viewSubvolumes).Fprint viewSubvolumes ("Error: " ++ err),
        calls := calls }
    | none => some { ui with calls := calls }
  | (.ok (subvolumes, snapshots), calls) =>
    let ui1 := UI.updateSubvolumes { ui with calls := calls } subvolumes
    let ui2 := ui1.updateSnapshots subvolumes snapshots
    let ui3 := ui2.updateDiskInfo cfg env
    ui3.updateSnapshotInfo cfg env

/-- The method `showDialog` (ui.go 433-467). -/
def showDialog (ui : UI) (message : String) : Result :=
  let g1 := (ui.gui.SetView viewDialog).1
  let g2 := g1.modify viewDialog fun v => { v with title := "GRUB Update" }
  let g3 := ((g2.Clear viewDialog).Fprint viewDialog (message ++ "\n")).Fprint viewDialog
    "\nPress Enter to close\n"
  match g3.SetCurrentView viewDialog with
  | none => ({ ui with gui := g3 }, some ErrUnknownView)
  | some g4 =>
    let g5 := g4.SetKeybinding viewDialog Key.enter Handler.dialogClose
    (updateHotkeys { ui with gui := g5 }, none)

/-- The method `showConfirmationDialog` (ui.go 470-510). -/
def showConfirmationDialog (ui : UI) (message : String) (confirmAction : Action) : Result :=
  let g1 := (ui.gui.SetView viewDialog).1
  let g2 := g1.modify viewDialog fun v => { v with title := "Action Confirmation" }
  let g3 := (g2.Clear viewDialog).Fprint viewDialog (message ++ "\n")
  match g3.SetCurrentView viewDialog with
  | none => ({ ui with gui := g3 }, some ErrUnknownView)
  | some g4 =>
    let g5 := g4.SetKeybinding viewDialog Key.enter (Handler.confirmEnter confirmAction)
    let g6 := g5.SetKeybinding viewDialog (Key.rune 'c') Handler.confirmCancel
    (updateHotkeys { ui with gui := g6 }, none)

/-- The method `closeDialog` (ui.go 513-529). -/
def closeDialog (ui : UI) : Result :=
  let g1 :=
    match ui.gui.View viewDialog with
    | some _ => (ui.gui.DeleteKeybinding viewDialog Key.enter).DeleteView viewDialog
    | none => ui.gui
  match g1.SetCurrentView ui.currentView with
  | none => ({ ui with gui := g1 }, some ErrUnknownView)
  | some g2 => (updateHotkeys { ui with gui := g2 }, none)

/-- The loop of `nextView` over `views` (ui.go 203-213). -/
def nextOf (views : List String) (current : String) : String :=
  let i := views.indexOf current
  if i < views.length then
    if i < views.length - 1 then views.getD (i + 1) current else views.getD 0 current
  else current

/-- The loop of `prevView` over `views` (ui.go 244-254). -/
def prevOf (views : List String) (current : String) : String :=
  let i := views.indexOf current
  if i < views.length then
    if i > 0 then views.getD (i - 1) current else views.getD (views.length - 1) current
  else current

/-- The highlight loop of `nextView` and `prevView` (ui.go 219-226). -/
def setHighlights (g : Gui) (current : String) : Gui :=
  [viewSubvolumes, viewSnapshots].foldl
    (fun g viewName => g.modify viewName fun v => { v with highlight := decide (viewName = current) })
    g

/-- What `nextView` and `prevView` do once `ui.currentView` is assigned
(ui.go 214-237 and 255-278). -/
def afterSwitch (cfg : Config) (env : Env) (ui : UI) : Option Result :=
  match ui.gui.SetCurrentView ui.currentView with
  | none => some (ui, some ErrUnknownView)
  | some g1 =>
    let ui1 : UI := { ui with gui := setHighlights g1 ui.currentView }
    if ui1.currentView = viewSnapshots then
      (ui1.UpdateViewContent cfg env).map fun ui2 => (ui2.updateHotkeys, none)
    else
      (ui1.updateSnapshotInfo cfg env).map fun ui2 => (ui2.updateHotkeys, none)

/-- The method `nextView` (ui.go 199-238). -/
def nextView (cfg : Config) (env : Env) (ui : UI) : Option Result :=
  if ui.isDialogVisible then some (ui, none)
  else
    afterSwitch cfg env
      { ui with currentView := nextOf [viewSubvolumes, viewSnapshots] ui.currentView }

/-- The method `prevView` (ui.go 240-279). -/
def prevView (cfg : Config) (env : Env) (ui : UI) : Option Result :=
  if ui.isDialogVisible then some (ui, none)
  else
    afterSwitch cfg env
      { ui with currentView := prevOf [viewSubvolumes, viewSnapshots] ui.currentView }

/-- The method `moveUp` (ui.go 281-304); `v` is the name of the view the
toolkit passes, `none` for a nil view. -/
def moveUp (cfg : Config) (env : Env) (ui : UI) (v : Option String) : Option Result :=
  match v with
  | none => some (ui, none)
  | some name =>
    if ui.isDialogVisible then some (ui, none)
    else if name = viewSubvolumes then
      let data := ui.subvolumesData.MoveUp
      let ui1 : UI := { ui with subvolumesData := data, gui := Render data ui.gui name }
      (ui1.UpdateViewContent cfg env).map fun ui2 => (ui2, none)
    else if name = viewSnapshots then
      let data := ui.snapshotsData.MoveUp
      let ui1 : UI := { ui with snapshotsData := data, gui := Render data ui.gui name }
      (ui1.updateSnapshotInfo cfg env).map fun ui2 => (ui2, none)
    else some (ui, none)

/-- The method `moveDown` (ui.go 306-329). -/
def moveDown (cfg : Config) (env : Env) (ui : UI) (v : Option String) : Option Result :=
  match v with
  | none => some (ui, none)
  | some name =>
    if ui.isDialogVisible then some (ui, none)
    else if name = viewSubvolumes then
      let data := ui.subvolumesData.MoveDown
      let ui1 : UI := { ui with subvolumesData := data, gui := Render data ui.gui name }
      (ui1.UpdateViewContent cfg env).map fun ui2 => (ui2, none)
    else if name = viewSnapshots then
      let data := ui.snapshotsData.MoveDown
      let ui1 : UI := { ui with snapshotsData := data, gui := Render data ui.gui name }
      (ui1.updateSnapshotInfo cfg env).map fun ui2 => (ui2, none)
    else some (ui, none)

/-- The method `deleteSnapshot` (ui.go 331-358), up to the opening of the
confirmation; the closure it binds is `Action.delete`. -/
def deleteSnapshot (ui : UI) : Option Result :=
  if ui.snapshotsData.items.length = 0 ∨ ui.isDialogVisible then some (ui, none)
  else
    match ui.snapshotsData.GetSelected with
    | none => none
    | some selectedSnapshot =>
      if selectedSnapshot = "" then some (ui, none)
      else
        let message := "Are you sure you want to delete snapshot:\n" ++ selectedSnapshot ++ "?"
        some (ui.showConfirmationDialog message (Action.delete selectedSnapshot))

/-- The method `createSnapshot` (ui.go 360-397), up to the opening of the
confirmation; the closure it binds is `Action.create`. -/
def createSnapshot (ui : UI) : Option Result :=
  if ui.subvolumesData.items.length = 0 ∨ ui.isDialogVisible then some (ui, none)
  else
    match ui.subvolumesData.GetSelected with
    | none => none
    | some selectedSubvol =>
      if selectedSubvol = "" then some (ui, none)
      else
        match groupKey selectedSubvol with
        | none => some (ui, none)
        | some subvolBase =>
          let message := "Are you sure you want to create snapshot for:\n" ++ selectedSubvol ++ "?"
          some (ui.showConfirmationDialog message (Action.create selectedSubvol subvolBase))

/-- The method `executeBtrfsBalance` (ui.go 182-191); the closure it binds is
`Action.balance`. -/
def executeBtrfsBalance (ui : UI) : Result :=
  let message :=
    "Are you sure you want to execute btrfs balance?\nThis operation may take a long time."
  ui.showConfirmationDialog message Action.balance

/-- The method `updateGrub` (ui.go 532-538). -/
def updateGrub (env : Env) (ui : UI) : Result :=
  match ExecuteCommand env "grub-mkconfig" ["-o", "/boot/grub/grub.cfg"] ui.calls with
  | (.error err, calls) =>
    showDialog { ui with calls := calls } ("Error updating GRUB:\n" ++ err)
  | (.ok output, calls) =>
    showDialog { ui with calls := calls } ("GRUB successfully updated:\n" ++ output)

/-- The bodies of the three `confirmAction` closures; `now` is what
`time.Now()` returns while the closure runs. -/
def runAction (cfg : Config) (env : Env) (now : Time) (ui : UI) : Action → Option Result
  | Action.balance =>
    match ExecuteBtrfsBalance env cfg.defaultBtrfsPath ui.calls with
    | (.error err, calls) =>
      some (showDialog { ui with calls := calls } ("Error executing btrfs balance:\n" ++ err))
    | (.ok output, calls) =>
      some (showDialog { ui with calls := calls } ("Btrfs balance completed:\n" ++ output))
  | Action.delete selectedSnapshot =>
    let fullPath := cfg.defaultBtrfsPath ++ "/" ++ selectedSnapshot
    match DeleteSnapshot env fullPath ui.calls with
    | (some err, calls) => some ({ ui with calls := calls }, some err)
    | (none, calls) =>
      (UpdateViewContent cfg env { ui with calls := calls }).map fun ui2 => (ui2, none)
  | Action.create selectedSubvol subvolBase =>
    let timestamp := now.Format
    let snapshotName := cfg.snapshotPrefix ++ "/" ++ subvolBase ++ "-" ++ timestamp
    let sourcePath := cfg.defaultBtrfsPath ++ "/" ++ selectedSubvol
    let destPath := cfg.defaultBtrfsPath ++ "/" ++ snapshotName
    match CreateSnapshot env sourcePath destPath ui.calls with
    | (some err, calls) => some ({ ui with calls := calls }, some err)
    | (none, calls) =>
      (UpdateViewContent cfg env { ui with calls := calls }).map fun ui2 => (ui2, none)

/-- The call of a bound function with the toolkit's current view `v`, at the
instant `now`. -/
def runHandler (cfg : Config) (env : Env) (now : Time) (ui : UI) (v : Option String) :
    Handler → Option Result
  | Handler.quit => some (ui, some ErrQuit)
  | Handler.createSnapshot => ui.createSnapshot
  | Handler.deleteSnapshot => ui.deleteSnapshot
  | Handler.prevView => ui.prevView cfg env
  | Handler.nextView => ui.nextView cfg env
  | Handler.moveUp => ui.moveUp cfg env v
  | Handler.moveDown => ui.moveDown cfg env v
  | Handler.updateGrub => some (ui.updateGrub env)
  | Handler.executeBtrfsBalance => some ui.executeBtrfsBalance
  | Handler.dialogClose => some ui.closeDialog
  | Handler.confirmEnter confirmAction => (ui.closeDialog).1.runAction cfg env now confirmAction
  | Handler.confirmCancel => some ui.closeDialog

end UI

/-- The key bindings of `setKeyBindings` (ui.go 133-179), in order. -/
def setKeyBindings (g : Gui) : Gui :=
  let g := g.SetKeybinding "" (Key.rune 'q') Handler.quit
  let g := g.SetKeybinding viewSubvolumes (Key.rune 't') Handler.createSnapshot
  let g := g.SetKeybinding viewSnapshots (Key.rune 'r') Handler.deleteSnapshot
  let g := g.SetKeybinding "" Key.arrowLeft Handler.prevView
  let g := g.SetKeybinding "" Key.arrowRight Handler.nextView
  let g := g.SetKeybinding viewSubvolumes Key.arrowUp Handler.moveUp
  let g := g.SetKeybinding viewSubvolumes Key.arrowDown Handler.moveDown
  let g := g.SetKeybinding viewSnapshots Key.arrowUp Handler.moveUp
  let g := g.SetKeybinding viewSnapshots Key.arrowDown Handler.moveDown
  let g := g.SetKeybinding "" (Key.rune 'g') Handler.updateGrub
  g.SetKeybinding "" (Key.rune 'b') Handler.executeBtrfsBalance

/-! ## Start-up and layout (ui.go 40-131) -/

/-- The state `Run` builds before the main loop starts (ui.go 48-58). -/
def initialUI : UI :=
  { gui := setKeyBindings { views := [], currentView := none, keybindings := [] },
    currentView := viewSubvolumes,
    subvolumesData := NewViewData,
    snapshotsData := NewViewData,
    calls := [] }

namespace UI

/-- The disk information view of `Layout` (ui.go 71-77). -/
def layoutDiskInfo (ui : UI) : UI :=
  match ui.gui.SetView viewDiskInfo with
  | (g, true) => { ui with gui := g.modify viewDiskInfo fun v => { v with title := "Disk Info" } }
  | (g, false) => { ui with gui := g }

/-- The subvolumes view of `Layout` (ui.go 80-93): when the view is created
it becomes the current view and the content is updated. -/
def layoutSubvolumes (cfg : Config) (env : Env) (ui : UI) : Option Result :=
  match ui.gui.SetView viewSubvolumes with
  | (g, true) =>
    let g1 := g.modify viewSubvolumes fun v => { v with title := "Subvolumes", highlight := true }
    match g1.SetCurrentView viewSubvolumes with
    | none => some ({ ui with gui := g1 }, some ErrUnknownView)
    | some g2 => (UpdateViewContent cfg env { ui with gui := g2 }).map fun ui2 => (ui2, none)
  | (g, false) => some ({ ui with gui := g }, none)

/-- The snapshots view of `Layout` (ui.go 96-106). -/
def layoutSnapshots (cfg : Config) (env : Env) (ui : UI) : Option UI :=
  match ui.gui.SetView viewSnapshots with
  | (g, true) =>
    let g1 := g.modify viewSnapshots fun v => { v with title := "Snapshots", highlight := false }
    UpdateViewContent cfg env { ui with gui := g1 }
  | (g, false) => some { ui with gui := g }

/-- The snapshot information view of `Layout` (ui.go 109-117). -/
def layoutSnapshotInfo (cfg : Config) (env : Env) (ui : UI) : Option UI :=
  match ui.gui.SetView viewSnapshotInfo with
  | (g, true) =>
    let g1 := g.modify viewSnapshotInfo fun v => { v with title := "Snapshot Info" }
    UpdateViewContent cfg env { ui with gui := g1 }
  | (g, false) => some { ui with gui := g }

/-- The hotkeys view of `Layout` (ui.go 120-128). -/
def layoutHotkeys (ui : UI) : UI :=
  match ui.gui.SetView viewHotkeys with
  | (g, true) =>
    let g1 := g.modify viewHotkeys fun v => { v with title := "Hotkeys" }
    let g2 := g1.Fprint viewHotkeys
      "q: Quit | ←/→: Switch view | ↑/↓: Navigate | t: Take snapshot\n"
    updateHotkeys { ui with gui := g2 }
  | (g, false) => { ui with gui := g }

/-- The method `Layout` (ui.go 67-131), for a terminal large enough for
every view. -/
def Layout (cfg : Config) (env : Env) (ui : UI) : Option Result :=
  match layoutSubvolumes cfg env ui.layoutDiskInfo with
  | none => none
  | some (ui1, some err) => some (ui1, some err)
  | some (ui1, none) =>
    match layoutSnapshots cfg env ui1 with
    | none => none
    | some ui2 =>
      match layoutSnapshotInfo cfg env ui2 with
      | none => none
      | some ui3 => some (ui3.layoutHotkeys, none)

end UI

/-- The states of a run: the state `Run` builds, and every state left by a
`Layout` pass or by a bound function that returned `nil` (any other return
value ends the main loop). -/
inductive Reachable (cfg : Config) (env : Env) : UI → Prop where
  | start : Reachable cfg env initialUI
  | layout (ui ui2 : UI) : Reachable cfg env ui → ui.Layout cfg env = some (ui2, none) →
      Reachable cfg env ui2
  | key (now : Time) (ui ui2 : UI) (v : Option String) (handler : Handler) :
      Reachable cfg env ui → ui.runHandler cfg env now v handler = some (ui2, none) →
      Reachable cfg env ui2

/-! ## Concrete scenarios -/

/-- A listing with two volumes and one snapshot of each. -/
def scenarioListing : String :=
  "ID 256 gen 10 top level 5 path _active/web-1\n" ++
  "ID 257 gen 10 top level 5 path _active/db-1\n" ++
  "ID 258 gen 11 top level 5 path _snapshots/web-20240101-000000\n" ++
  "ID 259 gen 12 top level 5 path _snapshots/db-20240101-000000\n"

/-- The managed file system of the scenarios. -/
def scenarioConfig : Config := defaultConfig "/mnt"

/-- The instant of the scenarios: 2024-01-02 03:04:05. -/
def scenarioNow : Time := ⟨2024, 1, 2, 3, 4, 5⟩

/-- A late instant on the 24-hour clock: 1999-12-31 23:59:58. -/
def eveningNow : Time := ⟨1999, 12, 31, 23, 59, 58⟩

/-- A world in which the listing succeeds with `scenarioListing`, `df`
answers one line, and every other command succeeds silently. -/
def scenarioEnv : Env :=
  { run := fun _ cmd =>
      if cmd = listCmd "/mnt" then .ok scenarioListing
      else if cmd = dfCmd "/mnt" then
        .ok "Filesystem Size Used Avail Use% Mounted on\n/dev/sda1 100G 40G 60G 40% /mnt\n"
      else .ok "" }

/-- A state of the running interface: all five views exist, no dialog is
open, the volumes pane is focused and its cursor is on `selectedVolume`. -/
def scenarioUI (selectedVolume : Int) : UI :=
  { gui :=
      { views :=
          [⟨viewDiskInfo, "Disk Info", false, ""⟩, ⟨viewSubvolumes, "Subvolumes", true, ""⟩,
            ⟨viewSnapshots, "Snapshots", false, ""⟩, ⟨viewSnapshotInfo, "Snapshot Info", false, ""⟩,
            ⟨viewHotkeys, "Hotkeys", false, ""⟩],
        currentView := some viewSubvolumes,
        keybindings := initialUI.gui.keybindings },
    currentView := viewSubvolumes,
    subvolumesData := ⟨["_active/web-1", "_active/db-1"], selectedVolume⟩,
    snapshotsData := ⟨[], 0⟩,
    calls := [] }

/-- The state `scenarioUI 0` with the snapshots pane focused and the web
snapshot listed. -/
def scenarioSnapshotsUI : UI :=
  { scenarioUI 0 with
    gui := { (scenarioUI 0).gui with currentView := some viewSnapshots },
    currentView := viewSnapshots,
    snapshotsData := ⟨["_snapshots/web-20240101-000000"], 0⟩ }

/-- The state in which the first `Layout` calls `UpdateViewContent`, at
ui.go 92: only the disk information and subvolumes views exist yet. -/
def firstPassUI : UI :=
  { initialUI with
    gui :=
      { views := [⟨viewDiskInfo, "Disk Info", false, ""⟩, ⟨viewSubvolumes, "Subvolumes", true, ""⟩],
        currentView := some viewSubvolumes,
        keybindings := initialUI.gui.keybindings } }

/-- A world in which the listing fails while `df` would answer. -/
def listingFailsEnv : Env :=
  { run := fun _ cmd =>
      if cmd = dfCmd "/mnt" then
        .ok "Filesystem Size Used Avail Use% Mounted on\n/dev/sda1 100G 40G 60G 40% /mnt\n"
      else .error "exit status 1" }

/-- A world in which the listing and `df` answer as in `scenarioEnv` and
every other command fails. -/
def actionsFailEnv : Env :=
  { run := fun _ cmd =>
      if cmd = listCmd "/mnt" then .ok scenarioListing
      else if cmd = dfCmd "/mnt" then
        .ok "Filesystem Size Used Avail Use% Mounted on\n/dev/sda1 100G 40G 60G 40% /mnt\n"
      else .error "exit status 1" }

/-- The state after the first `Layout` of a run in `scenarioEnv`. -/
def laidOutUI : UI :=
  ((initialUI.Layout scenarioConfig scenarioEnv).map Prod.fst).getD initialUI

/-- The state after the right-arrow key in `laidOutUI`. -/
def snapshotsFocusedUI : UI :=
  ((laidOutUI.nextView scenarioConfig scenarioEnv).map Prod.fst).getD laidOutUI

/-- The state after `r` in `snapshotsFocusedUI`: the confirmation of the
deletion of the web snapshot is open. -/
def confirmingDeleteUI : UI :=
  (snapshotsFocusedUI.deleteSnapshot.map Prod.fst).getD snapshotsFocusedUI

/-- The state after `t` in `laidOutUI`: the confirmation of a snapshot of
`_active/web-1` is open. -/
def confirmingCreateUI : UI :=
  (laidOutUI.createSnapshot.map Prod.fst).getD laidOutUI

/-- The state after `b` in `laidOutUI`: the confirmation of a balance is
open. -/
def confirmingBalanceUI : UI := laidOutUI.executeBtrfsBalance.1

/-- The state after `g` in `laidOutUI`: the informational dialog with the
result of the GRUB update is open. -/
def infoDialogUI : UI := (laidOutUI.updateGrub scenarioEnv).1

/-- A listing in which no path starts with the volume prefix: the two
snapshots of `scenarioListing` and nothing else. -/
def noVolumesListing : String :=
  "ID 258 gen 11 top level 5 path _snapshots/web-20240101-000000\n" ++
  "ID 259 gen 12 top level 5 path _snapshots/db-20240101-000000\n"

/-- A world like `scenarioEnv` in which the listing succeeds with
`noVolumesListing`. -/
def noVolumesEnv : Env :=
  { run := fun _ cmd =>
      if cmd = listCmd "/mnt" then .ok noVolumesListing
      else if cmd = dfCmd "/mnt" then
        .ok "Filesystem Size Used Avail Use% Mounted on\n/dev/sda1 100G 40G 60G 40% /mnt\n"
      else .ok "" }

/-- A state without the snapshots view, as in the first layout pass, whose
snapshot list holds an item under the cursor. -/
def noSnapshotsViewUI : UI :=
  { firstPassUI with snapshotsData := ⟨["_snapshots/db-20240101-000000", "_snapshots/x-1"], 1⟩ }

/-! ## Lemmas on the string helpers -/

theorem splitChars_eq (sep : Char) (l : List Char) :
    splitChars sep l =
      l.takeWhile (fun c => c != sep) ::
        (match afterFirst sep l with
          | none => []
          | some r => splitChars sep r) := by
  induction l with
  | nil => simp [splitChars, afterFirst]
  | cons c cs ih =>
    by_cases h : c = sep
    · subst h
      simp [splitChars, afterFirst]
    · simp only [splitChars, afterFirst, if_neg h]
      rw [ih]
      have hb : (c != sep) = true := by simpa using h
      simp [List.takeWhile, hb]

theorem takeWhile_takeWhile (p q : Char → Bool) (l : List Char) :
    (l.takeWhile q).takeWhile p = l.takeWhile (fun c => p c && q c) := by
  induction l with
  | nil => rfl
  | cons c cs ih =>
    by_cases hq : q c = true
    · by_cases hp : p c = true
      · simp [List.takeWhile, hq, hp, ih]
      · simp [List.takeWhile, hq, hp]
    · simp [List.takeWhile, hq]

theorem groupKey_eq_segment (path : String) : groupKey path = groupKeySegment path := by
  unfold groupKey groupKeySegment split
  rw [splitChars_eq '/' path.data]
  cases h : afterFirst '/' path.data with
  | none => simp
  | some r =>
    simp only [List.map_cons, Option.map_some']
    rw [splitChars_eq '/' r]
    simp only [List.map_cons]
    rw [splitChars_eq '-' (r.takeWhile fun c => c != '/')]
    simp [takeWhile_takeWhile]

theorem afterFirst_eq_none (sep : Char) (l : List Char) :
    afterFirst sep l = none ↔ sep ∉ l := by
  induction l with
  | nil => simp [afterFirst]
  | cons c cs ih =>
    by_cases h : c = sep
    · subst h; simp [afterFirst]
    · have h2 : ¬ sep = c := fun e => h e.symm
      simp [afterFirst, h, h2, ih]

theorem foldl_filterStep (base : String) (snaps acc : List String) :
    snaps.foldl
      (fun filtered snap =>
        match groupKey snap with
        | some snapBase => if snapBase = base then filtered ++ [snap] else filtered
        | none => filtered)
      acc = acc ++ snaps.filter (fun snap => decide (groupKey snap = some base)) := by
  induction snaps generalizing acc with
  | nil => simp
  | cons s rest ih =>
    simp only [List.foldl_cons]
    rw [ih]
    cases hk : groupKey s with
    | none => simp [List.filter_cons, hk]
    | some k =>
      by_cases hb : k = base
      · simp [List.filter_cons, hk, hb]
      · simp [List.filter_cons, hk, hb]

theorem filterSnapshots_eq_filter (base : String) (snaps : List String) :
    filterSnapshots base snaps = snaps.filter (fun snap => decide (groupKey snap = some base)) := by
  unfold filterSnapshots
  rw [foldl_filterStep]
  simp

/-! ## `ViewData` -/

theorem SetItems_items (vd : ViewData) (items : List String) :
    (vd.SetItems items).items = items := by
  unfold ViewData.SetItems
  dsimp only
  split_ifs <;> rfl

theorem SetItems_selected (vd : ViewData) (items : List String) :
    (vd.SetItems items).selected = max 0 (min vd.selected ((items.length : Int) - 1)) := by
  obtain ⟨old, sel⟩ := vd
  unfold ViewData.SetItems
  dsimp only
  split_ifs with h1 h2 h2 <;> dsimp only at h1 h2 ⊢ <;> omega

theorem SetItems_inRange (vd : ViewData) (items : List String) (hne : items ≠ []) :
    0 ≤ (vd.SetItems items).selected ∧ (vd.SetItems items).selected < (items.length : Int) := by
  have hlen : 0 < items.length := List.length_pos.mpr hne
  rw [SetItems_selected]
  omega

/-- C2. After `SetItems(items)` the backing items are the given list and
`selected` is `max(0, min(previous selected, len(items)-1))`, whatever the
previous selection was; so the cursor is a valid index of a non-empty list
and 0 on an empty one, and this holds after the last call of every sequence
of `SetItems` calls. -/
theorem SetItems_clamps (vd : ViewData) (items : List String) :
    (vd.SetItems items).items = items ∧
    (vd.SetItems items).selected = max 0 (min vd.selected ((items.length : Int) - 1)) ∧
    (items ≠ [] →
      0 ≤ (vd.SetItems items).selected ∧ (vd.SetItems items).selected < (items.length : Int)) ∧
    (items = [] → (vd.SetItems items).selected = 0) ∧
    (∀ earlier : List (List String),
      ((earlier ++ [items]).foldl ViewData.SetItems vd).items = items ∧
      (items ≠ [] →
        0 ≤ ((earlier ++ [items]).foldl ViewData.SetItems vd).selected ∧
        ((earlier ++ [items]).foldl ViewData.SetItems vd).selected < (items.length : Int)) ∧
      (items = [] → ((earlier ++ [items]).foldl ViewData.SetItems vd).selected = 0)) := by
  have key : ∀ w : ViewData,
      (w.SetItems items).items = items ∧
      (items ≠ [] →
        0 ≤ (w.SetItems items).selected ∧ (w.SetItems items).selected < (items.length : Int)) ∧
      (items = [] → (w.SetItems items).selected = 0) := by
    intro w
    refine ⟨SetItems_items w items, ?_, ?_⟩
    · exact SetItems_inRange w items
    · intro he
      subst he
      rw [SetItems_selected]
      simp
  refine ⟨SetItems_items vd items, SetItems_selected vd items, (key vd).2.1, (key vd).2.2, ?_⟩
  intro earlier
  rw [List.foldl_append]
  exact key _

/-- C2, at a concrete call: a cursor at 7 on a two-item list is clamped to 1. -/
theorem SetItems_clamps_witness :
    ["a", "b"] ≠ ([] : List String) ∧
    0 ≤ ((⟨[], 7⟩ : ViewData).SetItems ["a", "b"]).selected ∧
    ((⟨[], 7⟩ : ViewData).SetItems ["a", "b"]).selected < 2 :=
  ⟨by decide, (SetItems_clamps ⟨[], 7⟩ ["a", "b"]).2.2.1 (by decide)⟩

theorem iterate_fixed {α : Type} (f : α → α) (x : α) (h : f x = x) (n : Nat) : f^[n] x = x := by
  induction n with
  | zero => rfl
  | succ k ih => rw [Function.iterate_succ_apply, h, ih]

/-- C3. On a list whose cursor is between 0 and `max(0, len(items)-1)`,
`MoveUp` and `MoveDown` keep the items and keep the cursor in that range;
`MoveUp` subtracts exactly 1 unless the cursor is 0, `MoveDown` adds exactly 1
unless the cursor is the last index; at those ends, and on an empty list, the
state is unchanged however often the move is repeated. -/
theorem Move_clamped (vd : ViewData) (h0 : 0 ≤ vd.selected)
    (h1 : vd.selected ≤ max 0 ((vd.items.length : Int) - 1)) :
    vd.MoveUp.items = vd.items ∧ vd.MoveDown.items = vd.items ∧
    vd.MoveUp.selected = (if vd.selected = 0 then 0 else vd.selected - 1) ∧
    vd.MoveDown.selected =
      (if vd.selected = max 0 ((vd.items.length : Int) - 1) then vd.selected
        else vd.selected + 1) ∧
    (0 ≤ vd.MoveUp.selected ∧ vd.MoveUp.selected ≤ max 0 ((vd.items.length : Int) - 1)) ∧
    (0 ≤ vd.MoveDown.selected ∧ vd.MoveDown.selected ≤ max 0 ((vd.items.length : Int) - 1)) ∧
    (vd.selected = 0 → ∀ n : Nat, ViewData.MoveUp^[n] vd = vd) ∧
    (vd.selected = max 0 ((vd.items.length : Int) - 1) →
      ∀ n : Nat, ViewData.MoveDown^[n] vd = vd) ∧
    (vd.items = [] → vd.MoveUp = vd ∧ vd.MoveDown = vd) := by
  obtain ⟨items, selected⟩ := vd
  simp only at h0 h1
  refine ⟨?_, ?_, ?_, ?_, ?_, ?_, ?_, ?_, ?_⟩
  · unfold ViewData.MoveUp; split_ifs <;> rfl
  · unfold ViewData.MoveDown; split_ifs <;> rfl
  · unfold ViewData.MoveUp; dsimp only; split_ifs <;> simp only [] <;> omega
  · unfold ViewData.MoveDown; dsimp only; split_ifs <;> simp only [] <;> omega
  · unfold ViewData.MoveUp; dsimp only; split_ifs <;> simp only [] <;> omega
  · unfold ViewData.MoveDown; dsimp only; split_ifs <;> simp only [] <;> omega
  · intro hs n
    apply iterate_fixed
    unfold ViewData.MoveUp
    simp only at hs
    rw [if_neg (by simp [hs])]
  · intro hs n
    apply iterate_fixed
    unfold ViewData.MoveDown
    simp only at hs
    rw [if_neg (by simp only []; omega)]
  · intro he
    simp only at he
    subst he
    simp only [List.length_nil] at h1
    have hs : selected = 0 := by omega
    subst hs
    constructor
    · unfold ViewData.MoveUp; simp
    · unfold ViewData.MoveDown; simp

/-- C3, on a three-item list with the cursor on the last item: moving down
any number of times changes nothing. -/
theorem Move_clamped_witness :
    (0 : Int) ≤ 2 ∧ ViewData.MoveDown^[5] (⟨["a", "b", "c"], 2⟩ : ViewData) = ⟨["a", "b", "c"], 2⟩ :=
  ⟨by decide,
    (Move_clamped ⟨["a", "b", "c"], 2⟩ (by decide) (by decide)).2.2.2.2.2.2.2.1 (by decide) 5⟩

/-! ## Group key -/

theorem groupKey_eq_none_of_no_slash (path : String) (h : '/' ∉ path.data) :
    groupKey path = none := by
  rw [groupKey_eq_segment]
  unfold groupKeySegment
  rw [(afterFirst_eq_none '/' path.data).mpr h]
  rfl

theorem takeWhile_and_of_not_mem (l : List Char)
    (h : '/' ∉ l.takeWhile fun c => c != '-') :
    (l.takeWhile fun c => c != '-' && c != '/') = l.takeWhile fun c => c != '-' := by
  induction l with
  | nil => rfl
  | cons c cs ih =>
    by_cases hd : c = '-'
    · subst hd
      simp [List.takeWhile_cons]
    · have hb : (c != '-') = true := by simpa using hd
      simp only [List.takeWhile_cons, hb, if_true, List.mem_cons, not_or] at h
      have hs : (c != '/') = true := by
        simp only [bne_iff_ne, ne_eq]
        exact fun e => h.1 e.symm
      simp only [List.takeWhile_cons, hb, hs, Bool.and_self, if_true]
      rw [ih h.2]

/-- C4, as the code has it. For every path, the group key computed at both
call sites is the text between the first `/` and the next `-` or `/` after it
(or the end of the string): a path without `/` has no key and is in no
filtered list; a path with `/` has that key, which is the specification's
substring whenever no second `/` comes before the `-`.
`_snapshots/web-20240101-120000` gives `web` and `_active/db-prod` gives `db`. -/
theorem groupKey_is_second_segment_base (path : String) :
    groupKey path = groupKeySegment path ∧
    ('/' ∉ path.data →
      groupKey path = none ∧ ∀ base snaps, path ∉ filterSnapshots base snaps) ∧
    ('/' ∈ path.data →
      ∃ rest, afterFirst '/' path.data = some rest ∧
        groupKey path = some (String.mk (rest.takeWhile fun c => c != '-' && c != '/')) ∧
        (('/' ∉ rest.takeWhile fun c => c != '-') → groupKey path = groupKeySpec path)) ∧
    groupKey "_snapshots/web-20240101-120000" = some "web" ∧
    groupKey "_active/db-prod" = some "db" := by
  refine ⟨groupKey_eq_segment path, ?_, ?_, by decide, by decide⟩
  · intro h
    have hk := groupKey_eq_none_of_no_slash path h
    refine ⟨hk, ?_⟩
    intro base snaps hm
    rw [filterSnapshots_eq_filter, List.mem_filter, hk] at hm
    simp at hm
  · intro h
    cases hr : afterFirst '/' path.data with
    | none => exact absurd h ((afterFirst_eq_none '/' path.data).mp hr)
    | some rest =>
      refine ⟨rest, rfl, ?_, ?_⟩
      · rw [groupKey_eq_segment]
        unfold groupKeySegment
        rw [hr]
        rfl
      · intro hno
        rw [groupKey_eq_segment]
        unfold groupKeySegment groupKeySpec
        rw [hr]
        simp only [Option.map_some']
        rw [takeWhile_and_of_not_mem rest hno]

/-- C4, at two concrete paths: `justone` has no `/` and no key, and
`_active/db-prod` has the key `db`, which is also the specification's. -/
theorem groupKey_is_second_segment_base_witness :
    '/' ∉ "justone".data ∧ groupKey "justone" = none ∧
    '/' ∈ "_active/db-prod".data ∧
    (∃ rest, afterFirst '/' "_active/db-prod".data = some rest ∧
      groupKey "_active/db-prod" =
        some (String.mk (rest.takeWhile fun c => c != '-' && c != '/')) ∧
      (('/' ∉ rest.takeWhile fun c => c != '-') →
        groupKey "_active/db-prod" = groupKeySpec "_active/db-prod")) :=
  ⟨by decide, ((groupKey_is_second_segment_base "justone").2.1 (by decide)).1, by decide,
    (groupKey_is_second_segment_base "_active/db-prod").2.2.1 (by decide)⟩

/-- C4 as stated fails: for `_active/home/user` the code gives `home`, the
specification's substring (up to the next `-` or the end) is `home/user`. -/
theorem groupKey_differs_from_spec :
    groupKey "_active/home/user" = some "home" ∧
    groupKeySpec "_active/home/user" = some "home/user" ∧
    groupKey "_active/home/user" ≠ groupKeySpec "_active/home/user" := by
  decide

/-! ## The listing -/

theorem hasPrefix_slash_mem (p q : String) (h : HasPrefix p (q ++ "/") = true) :
    '/' ∈ p.data := by
  unfold HasPrefix at h
  rw [List.isPrefixOf_iff_prefix] at h
  obtain ⟨t, ht⟩ := h
  rw [← ht]
  simp [String.data_append]

theorem groupKey_isSome_of_slash (p : String) (h : '/' ∈ p.data) :
    ∃ base, groupKey p = some base := by
  rw [groupKey_eq_segment]
  unfold groupKeySegment
  cases hr : afterFirst '/' p.data with
  | none => exact absurd h ((afterFirst_eq_none '/' p.data).mp hr)
  | some rest => exact ⟨_, rfl⟩

theorem parseStep_fst (cfg : Config) (lines : List String) (acc : List String × List String)
    (hacc : ∀ p ∈ acc.1, HasPrefix p (cfg.subvolumePrefix ++ "/") = true) :
    ∀ p ∈ (lines.foldl
      (fun (acc : List String × List String) line =>
        if TrimSpace line = "" then acc
        else
          match afterFirstSub "path ".data line.data with
          | none => acc
          | some rest =>
            let path := TrimSpace (String.mk rest)
            if HasPrefix path (cfg.subvolumePrefix ++ "/") then (acc.1 ++ [path], acc.2)
            else if HasPrefix path (cfg.snapshotPrefix ++ "/") then (acc.1, acc.2 ++ [path])
            else acc)
      acc).1, HasPrefix p (cfg.subvolumePrefix ++ "/") = true := by
  induction lines generalizing acc with
  | nil => simpa using hacc
  | cons line rest ih =>
    rw [List.foldl_cons]
    apply ih
    split_ifs with h1
    · exact hacc
    · split
      · exact hacc
      · dsimp only
        split_ifs with h2 h3
        · intro p hp
          rw [List.mem_append, List.mem_singleton] at hp
          rcases hp with hp | hp
          · exact hacc p hp
          · rw [hp]; exact h2
        · exact hacc
        · exact hacc

/-- Every volume of a listing starts with the volume prefix and a `/`. -/
theorem parseSubvolumes_fst_starts (cfg : Config) (output : String) :
    ∀ p ∈ (parseSubvolumes cfg output).1, HasPrefix p (cfg.subvolumePrefix ++ "/") = true := by
  unfold parseSubvolumes
  apply parseStep_fst
  simp

/-- Every volume of a listing has a group key. -/
theorem parseSubvolumes_fst_groupKey (cfg : Config) (output p : String)
    (hp : p ∈ (parseSubvolumes cfg output).1) : ∃ base, groupKey p = some base :=
  groupKey_isSome_of_slash p
    (hasPrefix_slash_mem p cfg.subvolumePrefix (parseSubvolumes_fst_starts cfg output p hp))

theorem index_of_range (xs : List String) (i : Int) (h0 : 0 ≤ i) (h1 : i < (xs.length : Int)) :
    ∃ x, ViewData.index xs i = some x ∧ x ∈ xs := by
  unfold ViewData.index
  rw [if_pos h0]
  have hlt : i.toNat < xs.length := by omega
  refine ⟨xs.get ⟨i.toNat, hlt⟩, ?_, List.get_mem _ _ _⟩
  exact List.get?_eq_get hlt

/-! ## Views of the toolkit under writes -/

theorem find_map_name (views : List View) (name target : String) (f : View → View)
    (hf : ∀ v, (f v).name = v.name) :
    ((views.map fun v => if v.name = name then f v else v).find? fun v => v.name = target) =
      (views.find? fun v => v.name = target).map fun v => if v.name = name then f v else v := by
  induction views with
  | nil => rfl
  | cons v vs ih =>
    simp only [List.map_cons, List.find?_cons]
    by_cases hn : v.name = name
    · simp only [if_pos hn, hf]
      by_cases ht : v.name = target
      · simp [ht, ← hn]
      · simp [ht, ih]
    · simp only [if_neg hn]
      by_cases ht : v.name = target
      · have hn2 : ¬ target = name := fun e => hn (ht.trans e)
        simp [ht, hn2]
      · simp [ht, ih]

theorem View_modify (g : Gui) (name target : String) (f : View → View)
    (hf : ∀ v, (f v).name = v.name) :
    (g.modify name f).View target =
      (g.View target).map fun v => if v.name = name then f v else v := by
  unfold Gui.modify Gui.View
  exact find_map_name g.views name target f hf

theorem View_Clear_isSome (g : Gui) (name target : String) :
    ((g.Clear name).View target).isSome = (g.View target).isSome := by
  unfold Gui.Clear
  rw [View_modify g name target (fun v => { v with buffer := "" }) (fun _ => rfl)]
  simp

theorem View_Fprint_isSome (g : Gui) (name target text : String) :
    ((g.Fprint name text).View target).isSome = (g.View target).isSome := by
  unfold Gui.Fprint
  rw [View_modify g name target (fun v => { v with buffer := v.buffer ++ text }) (fun _ => rfl)]
  simp

theorem View_Render_isSome (vd : ViewData) (g : Gui) (name target : String) :
    ((Render vd g name).View target).isSome = (g.View target).isSome := by
  unfold Render
  rw [View_Fprint_isSome, View_Clear_isSome]

/-! ## Refresh -/

theorem GetBtrfsSubvolumes_ok (cfg : Config) (env : Env) (path output : String)
    (calls : List Cmd) (h : env.run calls (listCmd path) = .ok output) :
    GetBtrfsSubvolumes cfg env path calls =
      (.ok (parseSubvolumes cfg output), calls ++ [listCmd path]) := by
  unfold GetBtrfsSubvolumes
  rw [h]

theorem GetBtrfsSubvolumes_error (cfg : Config) (env : Env) (path err : String)
    (calls : List Cmd) (h : env.run calls (listCmd path) = .error err) :
    GetBtrfsSubvolumes cfg env path calls = (.error err, calls ++ [listCmd path]) := by
  unfold GetBtrfsSubvolumes
  rw [h]

/-- The disk information step leaves both lists and the focus as they are. -/
theorem updateDiskInfo_frame (cfg : Config) (env : Env) (ui : UI) :
    (ui.updateDiskInfo cfg env).snapshotsData = ui.snapshotsData ∧
    (ui.updateDiskInfo cfg env).subvolumesData = ui.subvolumesData ∧
    (ui.updateDiskInfo cfg env).currentView = ui.currentView := by
  unfold UI.updateDiskInfo
  split
  · exact ⟨rfl, rfl, rfl⟩
  · split <;> exact ⟨rfl, rfl, rfl⟩

theorem GetDiskInfo_calls (env : Env) (path : String) (calls : List Cmd) :
    (GetDiskInfo env path calls).2 = calls ++ [dfCmd path] := by
  unfold GetDiskInfo
  split
  · rfl
  · dsimp only
    split_ifs <;> rfl

/-- The disk information step runs at most the `df` command. -/
theorem updateDiskInfo_calls (cfg : Config) (env : Env) (ui : UI) :
    ∃ rest, (ui.updateDiskInfo cfg env).calls = ui.calls ++ rest := by
  unfold UI.updateDiskInfo
  split
  · exact ⟨[], by simp⟩
  · have h := GetDiskInfo_calls env cfg.defaultBtrfsPath ui.calls
    split
    · rename_i heq
      rw [heq] at h
      exact ⟨_, h⟩
    · rename_i heq
      rw [heq] at h
      exact ⟨_, h⟩

/-- With the snapshot cursor inside a non-empty snapshot list,
`updateSnapshotInfo` returns, and leaves both lists and the focus as they
are. -/
theorem updateSnapshotInfo_frame (cfg : Config) (env : Env) (ui : UI)
    (hsel : ui.snapshotsData.items ≠ [] →
      0 ≤ ui.snapshotsData.selected ∧
        ui.snapshotsData.selected < (ui.snapshotsData.items.length : Int)) :
    ∃ ui2, ui.updateSnapshotInfo cfg env = some ui2 ∧
      ui2.snapshotsData = ui.snapshotsData ∧
      ui2.subvolumesData = ui.subvolumesData ∧
      ui2.currentView = ui.currentView ∧
      ∃ rest, ui2.calls = ui.calls ++ rest := by
  unfold UI.updateSnapshotInfo
  by_cases hcur : ui.currentView ≠ viewSnapshots
  · rw [if_pos hcur]
    split <;> exact ⟨_, rfl, rfl, rfl, rfl, [], by simp⟩
  · rw [if_neg hcur]
    cases hv : ui.gui.View viewSnapshotInfo with
    | none => exact ⟨_, rfl, rfl, rfl, rfl, [], by simp⟩
    | some v =>
      cases hl : env.run ui.calls (listCmd cfg.defaultBtrfsPath) with
      | error err =>
        simp only [GetBtrfsSubvolumes_error cfg env _ err ui.calls hl]
        exact ⟨_, rfl, rfl, rfl, rfl, _, rfl⟩
      | ok output =>
        simp only [GetBtrfsSubvolumes_ok cfg env _ output ui.calls hl]
        by_cases hs : (parseSubvolumes cfg output).2.length = 0
        · rw [if_pos hs]
          exact ⟨_, rfl, rfl, rfl, rfl, _, rfl⟩
        · rw [if_neg hs]
          by_cases hlen : ui.snapshotsData.items.length > 0
          · have hne : ui.snapshotsData.items ≠ [] := List.length_pos.mp hlen
            obtain ⟨x, hx, -⟩ := index_of_range _ _ (hsel hne).1 (hsel hne).2
            rw [if_pos hlen]
            simp only [hx, GetBtrfsSnapshotInfo]
            cases env.run (ui.calls ++ [listCmd cfg.defaultBtrfsPath])
              (showCmd (cfg.defaultBtrfsPath ++ "/" ++ x)) with
            | error e => exact ⟨_, rfl, rfl, rfl, rfl, _, by simp only [List.append_assoc]; rfl⟩
            | ok info => exact ⟨_, rfl, rfl, rfl, rfl, _, by simp only [List.append_assoc]; rfl⟩
          · rw [if_neg hlen]
            exact ⟨_, rfl, rfl, rfl, rfl, _, rfl⟩

/-- The snapshot step of a refresh, when the snapshots view exists and the
volume under the cursor has a group key. -/
theorem updateSnapshots_items (ui : UI) (subvolumes snapshots : List String)
    (volume base : String)
    (hview : (ui.gui.View viewSnapshots).isSome = true)
    (hidx : ViewData.index subvolumes ui.subvolumesData.selected = some volume)
    (h0 : 0 ≤ ui.subvolumesData.selected)
    (h1 : ui.subvolumesData.selected < (subvolumes.length : Int))
    (hkey : groupKey volume = some base) :
    (ui.updateSnapshots subvolumes snapshots).snapshotsData.items =
        filterSnapshots base snapshots ∧
    (ui.updateSnapshots subvolumes snapshots).subvolumesData = ui.subvolumesData ∧
    ((ui.updateSnapshots subvolumes snapshots).snapshotsData.items ≠ [] →
      0 ≤ (ui.updateSnapshots subvolumes snapshots).snapshotsData.selected ∧
      (ui.updateSnapshots subvolumes snapshots).snapshotsData.selected <
        ((ui.updateSnapshots subvolumes snapshots).snapshotsData.items.length : Int)) := by
  unfold UI.updateSnapshots
  cases hv : ui.gui.View viewSnapshots with
  | none => rw [hv] at hview; simp at hview
  | some v =>
    rw [if_pos (And.intro h0 h1)]
    simp only [hidx, hkey]
    refine ⟨?_, ?_, ?_⟩
    · split_ifs <;> exact SetItems_items _ _
    · trivial
    · intro hne
      split_ifs with hr
      · simp only [SetItems_items]
        exact hr
      · rw [if_neg hr] at hne
        simp only [SetItems_items] at hne ⊢
        exact SetItems_inRange _ _ hne

theorem UpdateViewContent_ok (cfg : Config) (env : Env) (ui : UI) (output : String)
    (hlist : env.run ui.calls (listCmd cfg.defaultBtrfsPath) = .ok output) :
    ui.UpdateViewContent cfg env =
      ((((UI.updateSubvolumes { ui with calls := ui.calls ++ [listCmd cfg.defaultBtrfsPath] }
        (parseSubvolumes cfg output).1).updateSnapshots (parseSubvolumes cfg output).1
        (parseSubvolumes cfg output).2).updateDiskInfo cfg env).updateSnapshotInfo cfg env) := by
  unfold UI.UpdateViewContent
  rw [GetBtrfsSubvolumes_ok cfg env _ output ui.calls hlist]

theorem updateSubvolumes_frame (ui : UI) (subvolumes : List String) :
    (ui.updateSubvolumes subvolumes).subvolumesData = ui.subvolumesData.SetItems subvolumes ∧
    (ui.updateSubvolumes subvolumes).snapshotsData = ui.snapshotsData ∧
    (ui.updateSubvolumes subvolumes).currentView = ui.currentView ∧
    (ui.updateSubvolumes subvolumes).calls = ui.calls ∧
    ∀ target, ((ui.updateSubvolumes subvolumes).gui.View target).isSome =
      (ui.gui.View target).isSome := by
  unfold UI.updateSubvolumes
  split
  · exact ⟨rfl, rfl, rfl, rfl, fun target => View_Render_isSome _ _ _ _⟩
  · exact ⟨rfl, rfl, rfl, rfl, fun _ => rfl⟩

/-- C1, as the code has it. For every successful listing with at least one
volume, `UpdateViewContent` returns with the volume list equal to the listing
and its cursor re-clamped, and:
when the snapshots view exists, the snapshot list's items are exactly the
listed snapshots whose group key equals the group key of the volume under
that cursor, the same elements in the order of the listing;
when the snapshots view does not exist, the snapshot list, items and cursor,
is left as it was (its cursor taken to be valid, as in every state of a run,
so that the call returns). -/
theorem UpdateViewContent_filters (cfg : Config) (env : Env) (ui : UI) (output : String)
    (hlist : env.run ui.calls (listCmd cfg.defaultBtrfsPath) = .ok output)
    (hvol : (parseSubvolumes cfg output).1 ≠ []) :
    ((ui.gui.View viewSnapshots).isSome = true →
      ∃ ui2 volume,
        ui.UpdateViewContent cfg env = some ui2 ∧
        ui2.subvolumesData = ui.subvolumesData.SetItems (parseSubvolumes cfg output).1 ∧
        ViewData.index (parseSubvolumes cfg output).1 ui2.subvolumesData.selected =
          some volume ∧
        ui2.snapshotsData.items =
          (parseSubvolumes cfg output).2.filter
            (fun snap => decide (groupKey snap = groupKey volume)) ∧
        ui2.snapshotsData.items.Sublist (parseSubvolumes cfg output).2 ∧
        ∀ snap, snap ∈ ui2.snapshotsData.items ↔
          snap ∈ (parseSubvolumes cfg output).2 ∧ groupKey snap = groupKey volume) ∧
    ((ui.gui.View viewSnapshots).isSome = false → ui.snapshotsData.Valid →
      ∃ ui2,
        ui.UpdateViewContent cfg env = some ui2 ∧
        ui2.subvolumesData = ui.subvolumesData.SetItems (parseSubvolumes cfg output).1 ∧
        ui2.snapshotsData = ui.snapshotsData) := by
  refine ⟨fun hview => ?_, fun hview hcur => ?_⟩
  · obtain ⟨hsv, -, -, -, hviews⟩ :=
      updateSubvolumes_frame { ui with calls := ui.calls ++ [listCmd cfg.defaultBtrfsPath] }
        (parseSubvolumes cfg output).1
    have hrange := SetItems_inRange ui.subvolumesData (parseSubvolumes cfg output).1 hvol
    obtain ⟨volume, hidx, hmem⟩ := index_of_range _ _ hrange.1 hrange.2
    obtain ⟨base, hbase⟩ := parseSubvolumes_fst_groupKey cfg output volume hmem
    have hsnap := updateSnapshots_items
      (UI.updateSubvolumes { ui with calls := ui.calls ++ [listCmd cfg.defaultBtrfsPath] }
        (parseSubvolumes cfg output).1)
      (parseSubvolumes cfg output).1 (parseSubvolumes cfg output).2 volume base
      (by rw [hviews]; exact hview) (by rw [hsv]; exact hidx) (by rw [hsv]; exact hrange.1)
      (by rw [hsv]; exact hrange.2) hbase
    obtain ⟨hitems, hsub, hsel⟩ := hsnap
    obtain ⟨hd1, hd2, -⟩ := updateDiskInfo_frame cfg env
      ((UI.updateSubvolumes { ui with calls := ui.calls ++ [listCmd cfg.defaultBtrfsPath] }
        (parseSubvolumes cfg output).1).updateSnapshots (parseSubvolumes cfg output).1
        (parseSubvolumes cfg output).2)
    obtain ⟨ui2, hret, hs1, hs2, -, -⟩ := updateSnapshotInfo_frame cfg env
      (((UI.updateSubvolumes { ui with calls := ui.calls ++ [listCmd cfg.defaultBtrfsPath] }
        (parseSubvolumes cfg output).1).updateSnapshots (parseSubvolumes cfg output).1
        (parseSubvolumes cfg output).2).updateDiskInfo cfg env)
      (by rw [hd1]; exact hsel)
    have hfinal : ui2.snapshotsData.items =
        (parseSubvolumes cfg output).2.filter
          (fun snap => decide (groupKey snap = groupKey volume)) := by
      rw [hs1, hd1, hitems, filterSnapshots_eq_filter, hbase]
    refine ⟨ui2, volume, ?_, ?_, ?_, hfinal, ?_, ?_⟩
    · rw [UpdateViewContent_ok cfg env ui output hlist]
      exact hret
    · rw [hs2, hd2, hsub, hsv]
    · rw [hs2, hd2, hsub, hsv]
      exact hidx
    · rw [hfinal]
      exact List.filter_sublist _
    · intro snap
      rw [hfinal, List.mem_filter]
      simp
  · obtain ⟨a1, a2, -, -, a5⟩ :=
      updateSubvolumes_frame { ui with calls := ui.calls ++ [listCmd cfg.defaultBtrfsPath] }
        (parseSubvolumes cfg output).1
    have hnone : (UI.updateSubvolumes
        { ui with calls := ui.calls ++ [listCmd cfg.defaultBtrfsPath] }
        (parseSubvolumes cfg output).1).gui.View viewSnapshots = none := by
      have h := a5 viewSnapshots
      rw [hview] at h
      cases hv : (UI.updateSubvolumes
          { ui with calls := ui.calls ++ [listCmd cfg.defaultBtrfsPath] }
          (parseSubvolumes cfg output).1).gui.View viewSnapshots with
      | none => rfl
      | some w => rw [hv] at h; cases h
    have hstep := UpdateViewContent_ok cfg env ui output hlist
    have hskip : ∀ u : UI, u.gui.View viewSnapshots = none →
        u.updateSnapshots (parseSubvolumes cfg output).1 (parseSubvolumes cfg output).2 = u := by
      intro u hu
      unfold UI.updateSnapshots
      rw [hu]
    rw [hskip _ hnone] at hstep
    obtain ⟨c1, c2, -⟩ := updateDiskInfo_frame cfg env
      (UI.updateSubvolumes { ui with calls := ui.calls ++ [listCmd cfg.defaultBtrfsPath] }
        (parseSubvolumes cfg output).1)
    obtain ⟨ui2, d1, d2, d3, -, -⟩ := updateSnapshotInfo_frame cfg env
      ((UI.updateSubvolumes { ui with calls := ui.calls ++ [listCmd cfg.defaultBtrfsPath] }
        (parseSubvolumes cfg output).1).updateDiskInfo cfg env)
      (by rw [c1, a2]; exact hcur)
    refine ⟨ui2, ?_, ?_, ?_⟩
    · rw [hstep]
      exact d1
    · rw [d3, c2, a1]
    · rw [d2, c1, a2]

/-- C1, in the scenario of the specification: with the cursor on the second
volume `_active/db-1` the snapshot list becomes the one `db` snapshot, and with
the cursor on the first volume the one `web` snapshot; and in a state without
the snapshots view a snapshot list of two items with the cursor on the second
stays as it is, although the listing has a snapshot of the selected volume. -/
theorem UpdateViewContent_filters_witness :
    (∃ ui2, (scenarioUI 1).UpdateViewContent scenarioConfig scenarioEnv = some ui2 ∧
      ui2.snapshotsData.items = ["_snapshots/db-20240101-000000"]) ∧
    ((scenarioUI 0).UpdateViewContent scenarioConfig scenarioEnv).map
      (fun u => u.snapshotsData.items) = some ["_snapshots/web-20240101-000000"] ∧
    (∃ ui2, noSnapshotsViewUI.UpdateViewContent scenarioConfig scenarioEnv = some ui2 ∧
      ui2.subvolumesData = ⟨["_active/web-1", "_active/db-1"], 0⟩ ∧
      ui2.snapshotsData = ⟨["_snapshots/db-20240101-000000", "_snapshots/x-1"], 1⟩) ∧
    (noSnapshotsViewUI.UpdateViewContent scenarioConfig scenarioEnv).map
      (fun u => u.snapshotsData) =
      some ⟨["_snapshots/db-20240101-000000", "_snapshots/x-1"], 1⟩ := by
  refine ⟨?_, by decide, ?_, by decide⟩
  · obtain ⟨ui2, volume, hret, hsv, hidx, hitems, -⟩ :=
      (UpdateViewContent_filters scenarioConfig scenarioEnv (scenarioUI 1) scenarioListing rfl
        (by decide)).1 (by decide)
    refine ⟨ui2, hret, ?_⟩
    rw [hsv] at hidx
    have hcomp : ViewData.index (parseSubvolumes scenarioConfig scenarioListing).1
        ((scenarioUI 1).subvolumesData.SetItems
          (parseSubvolumes scenarioConfig scenarioListing).1).selected =
        some "_active/db-1" := by decide
    have hvol : volume = "_active/db-1" := Option.some.inj (hidx.symm.trans hcomp)
    rw [hitems, hvol]
    decide
  · obtain ⟨ui2, hret, hsv, hsnap⟩ :=
      (UpdateViewContent_filters scenarioConfig scenarioEnv noSnapshotsViewUI scenarioListing
        rfl (by decide)).2 (by decide) (by decide)
    have hcomp : noSnapshotsViewUI.subvolumesData.SetItems
        (parseSubvolumes scenarioConfig scenarioListing).1 =
        ⟨["_active/web-1", "_active/db-1"], 0⟩ := by decide
    exact ⟨ui2, hret, hsv.trans hcomp, hsnap⟩

/-- C1 as stated fails in the first layout pass: the subvolumes view is
created before the snapshots view, `UpdateViewContent` runs with a successful
listing of two volumes, and the snapshot list stays empty although the listing
holds a snapshot of the selected volume. -/
theorem UpdateViewContent_without_snapshots_view :
    UI.layoutSubvolumes scenarioConfig scenarioEnv initialUI.layoutDiskInfo =
      (firstPassUI.UpdateViewContent scenarioConfig scenarioEnv).map (fun u => (u, none)) ∧
    parseSubvolumes scenarioConfig scenarioListing =
      (["_active/web-1", "_active/db-1"],
        ["_snapshots/web-20240101-000000", "_snapshots/db-20240101-000000"]) ∧
    (firstPassUI.UpdateViewContent scenarioConfig scenarioEnv).map
      (fun u => (u.subvolumesData, u.snapshotsData.items)) =
      some (⟨["_active/web-1", "_active/db-1"], 0⟩, []) ∧
    (["_snapshots/web-20240101-000000", "_snapshots/db-20240101-000000"].filter
      fun snap => decide (groupKey snap = groupKey "_active/web-1")) =
      ["_snapshots/web-20240101-000000"] := by
  decide

/-! ## Dialogs -/

theorem View_name (g : Gui) (target : String) (v : View) (h : g.View target = some v) :
    v.name = target := by
  unfold Gui.View at h
  have := List.find?_some h
  simpa using this

theorem View_SetView_self (g : Gui) (name : String) :
    ((g.SetView name).1.View name).isSome = true := by
  unfold Gui.SetView
  cases h : g.View name with
  | some v => simp [h]
  | none =>
    simp only [Gui.View, List.find?_append]
    unfold Gui.View at h
    simp [h]

theorem View_SetView_other (g : Gui) (name target : String) (hne : target ≠ name) :
    (g.SetView name).1.View target = g.View target := by
  unfold Gui.SetView
  cases h : g.View name with
  | some v => rfl
  | none =>
    simp only [Gui.View, List.find?_append]
    cases h2 : g.views.find? (fun v => decide (v.name = target)) with
    | some w => simp
    | none =>
      have : ¬ name = target := fun e => hne e.symm
      simp [this]

theorem SetView_frame (g : Gui) (name : String) :
    (g.SetView name).1.currentView = g.currentView ∧
    (g.SetView name).1.keybindings = g.keybindings := by
  unfold Gui.SetView
  split <;> exact ⟨rfl, rfl⟩

theorem View_DeleteView_self (g : Gui) (name : String) :
    (g.DeleteView name).View name = none := by
  unfold Gui.DeleteView Gui.View
  simp only [List.find?_eq_none, List.mem_filter]
  intro v hv
  simpa using hv.2

theorem View_DeleteView_other (g : Gui) (name target : String) (hne : target ≠ name) :
    (g.DeleteView name).View target = g.View target := by
  unfold Gui.DeleteView Gui.View
  show List.find? _ (List.filter _ g.views) = _
  induction g.views with
  | nil => rfl
  | cons v vs ih =>
    by_cases hn : v.name = name
    · have ht : ¬ v.name = target := fun e => hne (e.symm.trans hn)
      rw [List.filter_cons_of_neg (by simpa using hn), List.find?_cons_of_neg _ (by simpa using ht)]
      exact ih
    · by_cases ht : v.name = target
      · rw [List.filter_cons_of_pos (by simpa using hn),
          List.find?_cons_of_pos _ (by simpa using ht),
          List.find?_cons_of_pos _ (by simpa using ht)]
      · rw [List.filter_cons_of_pos (by simpa using hn),
          List.find?_cons_of_neg _ (by simpa using ht),
          List.find?_cons_of_neg _ (by simpa using ht)]
        exact ih

theorem View_modify_isSome (g : Gui) (name target : String) (f : View → View)
    (hf : ∀ v, (f v).name = v.name) :
    ((g.modify name f).View target).isSome = (g.View target).isSome := by
  rw [View_modify g name target f hf]
  simp

theorem View_modify_other (g : Gui) (name target : String) (f : View → View)
    (hf : ∀ v, (f v).name = v.name) (hne : target ≠ name) :
    (g.modify name f).View target = g.View target := by
  rw [View_modify g name target f hf]
  cases h : g.View target with
  | none => rfl
  | some v =>
    have hv := View_name g target v h
    have : ¬ v.name = name := fun e => hne (hv.symm.trans e)
    simp [this]

theorem View_Clear_other (g : Gui) (name target : String) (hne : target ≠ name) :
    (g.Clear name).View target = g.View target :=
  View_modify_other g name target (fun v => { v with buffer := "" }) (fun _ => rfl) hne

theorem View_Fprint_other (g : Gui) (name target text : String) (hne : target ≠ name) :
    (g.Fprint name text).View target = g.View target :=
  View_modify_other g name target (fun v => { v with buffer := v.buffer ++ text })
    (fun _ => rfl) hne

/-- The hotkey legend is the only thing `updateHotkeys` writes. -/
theorem updateHotkeys_frame (ui : UI) :
    ui.updateHotkeys.currentView = ui.currentView ∧
    ui.updateHotkeys.subvolumesData = ui.subvolumesData ∧
    ui.updateHotkeys.snapshotsData = ui.snapshotsData ∧
    ui.updateHotkeys.calls = ui.calls ∧
    ui.updateHotkeys.gui.keybindings = ui.gui.keybindings ∧
    ui.updateHotkeys.gui.currentView = ui.gui.currentView ∧
    (∀ target, (ui.updateHotkeys.gui.View target).isSome = (ui.gui.View target).isSome) ∧
    (∀ target, target ≠ viewHotkeys → ui.updateHotkeys.gui.View target = ui.gui.View target) := by
  unfold UI.updateHotkeys
  cases h1 : ui.gui.View viewHotkeys with
  | none => exact ⟨rfl, rfl, rfl, rfl, rfl, rfl, fun _ => rfl, fun _ _ => rfl⟩
  | some hv =>
    simp only []
    cases h2 : (ui.gui.Clear viewHotkeys).View viewDialog with
    | some dv =>
      simp only []
      split_ifs
      all_goals
        refine ⟨rfl, rfl, rfl, rfl, rfl, rfl, fun target => ?_, fun target hne => ?_⟩
        · simp only [View_Fprint_isSome, View_Clear_isSome]
        · simp only [View_Fprint_other _ _ _ _ hne, View_Clear_other _ _ _ hne]
    | none =>
      simp only []
      split_ifs
      all_goals
        refine ⟨rfl, rfl, rfl, rfl, rfl, rfl, fun target => ?_, fun target hne => ?_⟩
        · simp only [View_Fprint_isSome, View_Clear_isSome]
        · simp only [View_Fprint_other _ _ _ _ hne, View_Clear_other _ _ _ hne]

theorem isDialogVisible_updateHotkeys (ui : UI) :
    ui.updateHotkeys.isDialogVisible = ui.isDialogVisible := by
  unfold UI.isDialogVisible
  exact (updateHotkeys_frame ui).2.2.2.2.2.2.1 viewDialog

theorem SetCurrentView_of_isSome (g : Gui) (name : String)
    (h : (g.View name).isSome = true) :
    g.SetCurrentView name = some { g with currentView := some name } := by
  unfold Gui.SetCurrentView
  cases hv : g.View name with
  | none => rw [hv] at h; simp at h
  | some v => rfl

/-- What `showConfirmationDialog` leaves: the dialog view exists and is the
toolkit's current view, its Enter key is bound to the given action and `c` to
the cancel closure, and nothing else of the state has changed. -/
theorem showConfirmationDialog_spec (ui : UI) (message : String) (confirmAction : Action) :
    (ui.showConfirmationDialog message confirmAction).2 = none ∧
    (ui.showConfirmationDialog message confirmAction).1.isDialogVisible = true ∧
    (ui.showConfirmationDialog message confirmAction).1.currentView = ui.currentView ∧
    (ui.showConfirmationDialog message confirmAction).1.subvolumesData = ui.subvolumesData ∧
    (ui.showConfirmationDialog message confirmAction).1.snapshotsData = ui.snapshotsData ∧
    (ui.showConfirmationDialog message confirmAction).1.calls = ui.calls ∧
    (ui.showConfirmationDialog message confirmAction).1.gui.keybindings =
      ui.gui.keybindings ++
        [⟨viewDialog, Key.enter, Handler.confirmEnter confirmAction⟩,
          ⟨viewDialog, Key.rune 'c', Handler.confirmCancel⟩] ∧
    (ui.showConfirmationDialog message confirmAction).1.gui.currentView = some viewDialog ∧
    (∀ target, target ≠ viewDialog →
      ((ui.showConfirmationDialog message confirmAction).1.gui.View target).isSome =
        (ui.gui.View target).isSome) := by
  have hsome : (((((ui.gui.SetView viewDialog).1.modify viewDialog
      fun v => { v with title := "Action Confirmation" }).Clear viewDialog).Fprint viewDialog
      (message ++ "\n")).View viewDialog).isSome = true := by
    rw [View_Fprint_isSome, View_Clear_isSome,
      View_modify_isSome _ _ _ (fun v => { v with title := "Action Confirmation" })
        (fun _ => rfl)]
    exact View_SetView_self _ _
  have hother : ∀ target, target ≠ viewDialog →
      (((((ui.gui.SetView viewDialog).1.modify viewDialog
      fun v => { v with title := "Action Confirmation" }).Clear viewDialog).Fprint viewDialog
      (message ++ "\n")).View target).isSome = (ui.gui.View target).isSome := by
    intro target hne
    rw [View_Fprint_isSome, View_Clear_isSome,
      View_modify_isSome _ _ _ (fun v => { v with title := "Action Confirmation" })
        (fun _ => rfl), View_SetView_other _ _ _ hne]
  unfold UI.showConfirmationDialog
  simp only [SetCurrentView_of_isSome _ _ hsome]
  obtain ⟨f1, f2, f3, f4, f5, f6, f7, -⟩ := updateHotkeys_frame
    { ui with gui := ((({ ((((ui.gui.SetView viewDialog).1.modify viewDialog
      fun v => { v with title := "Action Confirmation" }).Clear viewDialog).Fprint viewDialog
      (message ++ "\n")) with currentView := some viewDialog } : Gui).SetKeybinding viewDialog
      Key.enter (Handler.confirmEnter confirmAction)).SetKeybinding viewDialog (Key.rune 'c')
      Handler.confirmCancel) }
  refine ⟨trivial, ?_, f1, f2, f3, f4, ?_, ?_, ?_⟩
  · unfold UI.isDialogVisible
    rw [f7]
    exact hsome
  · rw [f5]
    simp [Gui.SetKeybinding, Gui.Fprint, Gui.Clear, Gui.modify, (SetView_frame _ _).2]
  · rw [f6]
    rfl
  · intro target hne
    rw [f7]
    exact hother target hne

/-- What `closeDialog` leaves: no dialog view; both lists, the focus and the
record of commands as they were; and, when the focused pane exists, the
toolkit's current view is the focused pane and no error is returned. -/
theorem closeDialog_spec (ui : UI) :
    ui.closeDialog.1.isDialogVisible = false ∧
    ui.closeDialog.1.currentView = ui.currentView ∧
    ui.closeDialog.1.subvolumesData = ui.subvolumesData ∧
    ui.closeDialog.1.snapshotsData = ui.snapshotsData ∧
    ui.closeDialog.1.calls = ui.calls ∧
    ((ui.gui.View ui.currentView).isSome = true → ui.currentView ≠ viewDialog →
      ui.closeDialog.2 = none ∧ ui.closeDialog.1.gui.currentView = some ui.currentView) := by
  have hg : ∃ g1 : Gui,
      (match ui.gui.View viewDialog with
        | some _ => (ui.gui.DeleteKeybinding viewDialog Key.enter).DeleteView viewDialog
        | none => ui.gui) = g1 ∧
      g1.View viewDialog = none ∧
      ∀ target, target ≠ viewDialog → g1.View target = ui.gui.View target := by
    cases hd : ui.gui.View viewDialog with
    | some v =>
      refine ⟨_, rfl, View_DeleteView_self _ _, fun target hne => ?_⟩
      rw [View_DeleteView_other _ _ _ hne]
      rfl
    | none => exact ⟨_, rfl, hd, fun _ _ => rfl⟩
  obtain ⟨g1, hg1, hnone, hsame⟩ := hg
  unfold UI.closeDialog
  simp only [hg1]
  cases hs : g1.SetCurrentView ui.currentView with
  | none =>
    refine ⟨?_, rfl, rfl, rfl, rfl, ?_⟩
    · unfold UI.isDialogVisible
      simp [hnone]
    · intro hex hne
      rw [SetCurrentView_of_isSome g1 _ (by rw [hsame _ hne]; exact hex)] at hs
      cases hs
  | some g2 =>
    have hg2 : g2 = { g1 with currentView := some ui.currentView } := by
      unfold Gui.SetCurrentView at hs
      split at hs
      · exact (Option.some.inj hs).symm
      · cases hs
    obtain ⟨f1, f2, f3, f4, -, f6, f7, -⟩ := updateHotkeys_frame { ui with gui := g2 }
    refine ⟨?_, f1, f2, f3, f4, fun _ _ => ⟨rfl, ?_⟩⟩
    · unfold UI.isDialogVisible
      rw [f7, hg2]
      show (g1.View viewDialog).isSome = false
      simp [hnone]
    · simp only []
      rw [f6, hg2]

/-- C5. When `deleteSnapshot` opens its confirmation (no dialog is open and
the selected snapshot is not the empty string, so the list is not empty),
the cancel handler of that dialog runs no external command at all, so neither
`DeleteSnapshot` nor the bound commit action; it leaves the snapshot list with
its cursor, the volume list and the focus as they were before the dialog; the
dialog is closed, and when the focused pane exists the handler returns no
error and the toolkit's current view is the focused pane again. -/
theorem deleteSnapshot_cancel (cfg : Config) (env : Env) (now : Time) (ui : UI)
    (selectedSnapshot : String)
    (hdlg : ui.isDialogVisible = false)
    (hsel : ui.snapshotsData.GetSelected = some selectedSnapshot)
    (hname : selectedSnapshot ≠ "") :
    ∃ ui1, ui.deleteSnapshot = some (ui1, none) ∧
      ui1.isDialogVisible = true ∧
      ui1.gui.currentView = some viewDialog ∧
      ui1.gui.keybindings = ui.gui.keybindings ++
        [⟨viewDialog, Key.enter, Handler.confirmEnter (Action.delete selectedSnapshot)⟩,
          ⟨viewDialog, Key.rune 'c', Handler.confirmCancel⟩] ∧
      ∃ ui2 err,
        UI.runHandler cfg env now ui1 (some viewDialog) Handler.confirmCancel =
          some (ui2, err) ∧
        ui2.calls = ui.calls ∧
        deleteCmd (cfg.defaultBtrfsPath ++ "/" ++ selectedSnapshot) ∉ ui2.calls.drop ui.calls.length ∧
        ui2.snapshotsData = ui.snapshotsData ∧
        ui2.subvolumesData = ui.subvolumesData ∧
        ui2.currentView = ui.currentView ∧
        ui2.isDialogVisible = false ∧
        ((ui.gui.View ui.currentView).isSome = true →
          err = none ∧ ui2.gui.currentView = some ui.currentView) := by
  have hlen : ¬ ui.snapshotsData.items.length = 0 := by
    intro h
    unfold ViewData.GetSelected at hsel
    rw [if_pos h] at hsel
    exact hname (Option.some.inj hsel).symm
  obtain ⟨s1, s2, s3, s4, s5, s6, s7, s8, s9⟩ := showConfirmationDialog_spec ui
    ("Are you sure you want to delete snapshot:\n" ++ selectedSnapshot ++ "?")
    (Action.delete selectedSnapshot)
  obtain ⟨c1, c2, c3, c4, c5, c6⟩ := closeDialog_spec
    (ui.showConfirmationDialog
      ("Are you sure you want to delete snapshot:\n" ++ selectedSnapshot ++ "?")
      (Action.delete selectedSnapshot)).1
  refine ⟨(ui.showConfirmationDialog
      ("Are you sure you want to delete snapshot:\n" ++ selectedSnapshot ++ "?")
      (Action.delete selectedSnapshot)).1, ?_, s2, s8, s7,
    (UI.closeDialog (ui.showConfirmationDialog
      ("Are you sure you want to delete snapshot:\n" ++ selectedSnapshot ++ "?")
      (Action.delete selectedSnapshot)).1).1,
    (UI.closeDialog (ui.showConfirmationDialog
      ("Are you sure you want to delete snapshot:\n" ++ selectedSnapshot ++ "?")
      (Action.delete selectedSnapshot)).1).2, rfl, ?_, ?_, ?_, ?_, ?_, c1, ?_⟩
  · unfold UI.deleteSnapshot
    simp only [hlen, hdlg, hsel, hname, if_false, false_or, Bool.false_eq_true]
    rw [← s1]
  · rw [c5, s6]
  · rw [c5, s6]
    simp
  · rw [c4, s5]
  · rw [c3, s4]
  · rw [c2, s3]
  · intro hex
    have hne : ui.currentView ≠ viewDialog := by
      intro he
      rw [he] at hex
      unfold UI.isDialogVisible at hdlg
      rw [hdlg] at hex
      cases hex
    rw [s3] at c6
    exact c6 (by rw [s9 _ hne]; exact hex) hne

/-- C5, in the scenario: the web snapshot is selected in the snapshots pane,
`r` opens the confirmation and `c` cancels it; no command has run and the
snapshots pane has the keys again. -/
theorem deleteSnapshot_cancel_witness :
    ∃ ui1, scenarioSnapshotsUI.deleteSnapshot = some (ui1, none) ∧
      ∃ ui2, UI.runHandler scenarioConfig scenarioEnv scenarioNow ui1 (some viewDialog)
          Handler.confirmCancel = some (ui2, none) ∧
        ui2.calls = [] ∧
        ui2.snapshotsData = ⟨["_snapshots/web-20240101-000000"], 0⟩ ∧
        ui2.gui.currentView = some viewSnapshots := by
  obtain ⟨ui1, h1, -, -, -, ui2, err, h2, h3, -, h4, -, -, -, h5⟩ :=
    deleteSnapshot_cancel scenarioConfig scenarioEnv scenarioNow scenarioSnapshotsUI
      "_snapshots/web-20240101-000000" (by decide) (by decide) (by decide)
  obtain ⟨h6, h7⟩ := h5 (by decide)
  subst h6
  exact ⟨ui1, h1, ui2, h2, h3, h4, h7⟩

set_option maxRecDepth 100000 in
/-- C6 fails on the code for two of the four handlers. A run starts, the
focus goes to the snapshots pane and `r` opens the confirmation of a deletion.
In that state `createSnapshot` and `deleteSnapshot` return without effect, but
`updateGrub` runs `grub-mkconfig` and turns the dialog into an informational
one with another text and a second Enter closure, and `executeBtrfsBalance`
replaces the dialog's message and binds a second Enter closure. -/
theorem action_handlers_while_dialog_open :
    initialUI.Layout scenarioConfig scenarioEnv = some (laidOutUI, none) ∧
    laidOutUI.nextView scenarioConfig scenarioEnv = some (snapshotsFocusedUI, none) ∧
    snapshotsFocusedUI.deleteSnapshot = some (confirmingDeleteUI, none) ∧
    confirmingDeleteUI.isDialogVisible = true ∧
    (confirmingDeleteUI.gui.View viewDialog).map (fun v => (v.title, v.buffer)) =
      some ("Action Confirmation",
        "Are you sure you want to delete snapshot:\n_snapshots/web-20240101-000000?\n") ∧
    confirmingDeleteUI.createSnapshot = some (confirmingDeleteUI, none) ∧
    confirmingDeleteUI.deleteSnapshot = some (confirmingDeleteUI, none) ∧
    (confirmingDeleteUI.updateGrub scenarioEnv).1.calls =
      confirmingDeleteUI.calls ++ [⟨"grub-mkconfig", ["-o", "/boot/grub/grub.cfg"]⟩] ∧
    ((confirmingDeleteUI.updateGrub scenarioEnv).1.gui.View viewDialog).map
        (fun v => (v.title, v.buffer)) =
      some ("GRUB Update", "GRUB successfully updated:\n\n\nPress Enter to close\n") ∧
    (confirmingDeleteUI.updateGrub scenarioEnv).1.gui.keybindings =
      confirmingDeleteUI.gui.keybindings ++ [⟨viewDialog, Key.enter, Handler.dialogClose⟩] ∧
    (confirmingDeleteUI.executeBtrfsBalance.1.gui.View viewDialog).map (fun v => v.buffer) =
      some ("Are you sure you want to execute btrfs balance?\n" ++
        "This operation may take a long time.\n") ∧
    confirmingDeleteUI.executeBtrfsBalance.1.gui.keybindings =
      confirmingDeleteUI.gui.keybindings ++
        [⟨viewDialog, Key.enter, Handler.confirmEnter Action.balance⟩,
          ⟨viewDialog, Key.rune 'c', Handler.confirmCancel⟩] := by
  decide

set_option maxRecDepth 100000 in
/-- C7 fails on the code. A run starts and `t` opens the confirmation of a
snapshot of `_active/web-1`. When `CreateSnapshot` fails, the commit handler
returns that error and no dialog is open afterwards; the sibling commit
handler of the balance confirmation does open an informational dialog with the
error text and returns `nil`. When `CreateSnapshot` succeeds the handler
returns `nil` after a refresh. -/
theorem create_commit_failure_returns_error :
    initialUI.Layout scenarioConfig actionsFailEnv = some (laidOutUI, none) ∧
    laidOutUI.createSnapshot = some (confirmingCreateUI, none) ∧
    (UI.runHandler scenarioConfig actionsFailEnv scenarioNow confirmingCreateUI (some viewDialog)
        (Handler.confirmEnter (Action.create "_active/web-1" "web"))).map
        (fun r => (r.2, r.1.isDialogVisible, r.1.calls.drop laidOutUI.calls.length)) =
      some (some "failed to create snapshot: exit status 1", false,
        [snapshotCmd "/mnt/_active/web-1" "/mnt/_snapshots/web-20240102-030405"]) ∧
    (UI.runHandler scenarioConfig actionsFailEnv scenarioNow confirmingBalanceUI (some viewDialog)
        (Handler.confirmEnter Action.balance)).map
        (fun r => (r.2, (r.1.gui.View viewDialog).map fun v => (v.title, v.buffer))) =
      some (none, some ("GRUB Update",
        "Error executing btrfs balance:\nfailed to execute command: exit status 1\n" ++
          "\nPress Enter to close\n")) ∧
    (UI.runHandler scenarioConfig scenarioEnv scenarioNow confirmingCreateUI (some viewDialog)
        (Handler.confirmEnter (Action.create "_active/web-1" "web"))).map
        (fun r => (r.2, r.1.isDialogVisible, r.1.calls.drop laidOutUI.calls.length)) =
      some (none, false,
        [snapshotCmd "/mnt/_active/web-1" "/mnt/_snapshots/web-20240102-030405",
          listCmd "/mnt", dfCmd "/mnt"]) := by
  decide

/-- The snapshot step of a refresh runs no command, keeps the volume list and
the focus, and leaves the snapshot cursor inside a non-empty snapshot list if
it was so before. -/
theorem updateSnapshots_frame (ui : UI) (subvolumes snapshots : List String)
    (hsel : ui.snapshotsData.items ≠ [] →
      0 ≤ ui.snapshotsData.selected ∧
        ui.snapshotsData.selected < (ui.snapshotsData.items.length : Int)) :
    (ui.updateSnapshots subvolumes snapshots).calls = ui.calls ∧
    (ui.updateSnapshots subvolumes snapshots).currentView = ui.currentView ∧
    (ui.updateSnapshots subvolumes snapshots).subvolumesData = ui.subvolumesData ∧
    ((ui.updateSnapshots subvolumes snapshots).snapshotsData.items ≠ [] →
      0 ≤ (ui.updateSnapshots subvolumes snapshots).snapshotsData.selected ∧
      (ui.updateSnapshots subvolumes snapshots).snapshotsData.selected <
        ((ui.updateSnapshots subvolumes snapshots).snapshotsData.items.length : Int)) := by
  unfold UI.updateSnapshots
  cases hv : ui.gui.View viewSnapshots with
  | none => exact ⟨rfl, rfl, rfl, hsel⟩
  | some v =>
    simp only []
    by_cases hr : 0 ≤ ui.subvolumesData.selected ∧
        ui.subvolumesData.selected < (subvolumes.length : Int)
    · rw [if_pos hr]
      cases hi : ViewData.index subvolumes ui.subvolumesData.selected with
      | none => exact ⟨rfl, rfl, rfl, hsel⟩
      | some volume =>
        simp only []
        cases hk : groupKey volume with
        | none => exact ⟨rfl, rfl, rfl, hsel⟩
        | some base =>
          simp only []
          refine ⟨trivial, trivial, trivial, ?_⟩
          intro hne
          split_ifs with hc
          · simp only [SetItems_items]
            exact hc
          · rw [if_neg hc] at hne
            simp only [SetItems_items] at hne ⊢
            exact SetItems_inRange _ _ hne
    · rw [if_neg hr]
      exact ⟨rfl, rfl, rfl, hsel⟩

/-- A refresh whose listing fails: the error text replaces the content of
the subvolumes view and nothing else happens. -/
theorem UpdateViewContent_error (cfg : Config) (env : Env) (ui : UI) (err : String)
    (hlist : env.run ui.calls (listCmd cfg.defaultBtrfsPath) = .error err) :
    ui.UpdateViewContent cfg env =
      some { ui with
        gui :=
          match ui.gui.View viewSubvolumes with
          | some _ => (ui.gui.Clear viewSubvolumes).Fprint viewSubvolumes ("Error: " ++ err)
          | none => ui.gui,
        calls := ui.calls ++ [listCmd cfg.defaultBtrfsPath] } := by
  unfold UI.UpdateViewContent
  rw [GetBtrfsSubvolumes_error cfg env _ err ui.calls hlist]
  cases ui.gui.View viewSubvolumes <;> rfl

/-- With the snapshot cursor inside a non-empty snapshot list,
`UpdateViewContent` returns; the listing is the first command it runs; the
focus is kept and the snapshot cursor is still inside the list. -/
theorem UpdateViewContent_returns (cfg : Config) (env : Env) (ui : UI)
    (hsel : ui.snapshotsData.items ≠ [] →
      0 ≤ ui.snapshotsData.selected ∧
        ui.snapshotsData.selected < (ui.snapshotsData.items.length : Int)) :
    ∃ ui2 rest, ui.UpdateViewContent cfg env = some ui2 ∧
      ui2.calls = ui.calls ++ listCmd cfg.defaultBtrfsPath :: rest ∧
      ui2.currentView = ui.currentView ∧
      (ui2.snapshotsData.items ≠ [] →
        0 ≤ ui2.snapshotsData.selected ∧
          ui2.snapshotsData.selected < (ui2.snapshotsData.items.length : Int)) := by
  cases hl : env.run ui.calls (listCmd cfg.defaultBtrfsPath) with
  | error err =>
    rw [UpdateViewContent_error cfg env ui err hl]
    exact ⟨_, [], rfl, rfl, rfl, hsel⟩
  | ok output =>
    rw [UpdateViewContent_ok cfg env ui output hl]
    obtain ⟨-, a2, a3, a4, -⟩ :=
      updateSubvolumes_frame { ui with calls := ui.calls ++ [listCmd cfg.defaultBtrfsPath] }
        (parseSubvolumes cfg output).1
    obtain ⟨b1, b2, -, b4⟩ := updateSnapshots_frame
      (UI.updateSubvolumes { ui with calls := ui.calls ++ [listCmd cfg.defaultBtrfsPath] }
        (parseSubvolumes cfg output).1)
      (parseSubvolumes cfg output).1 (parseSubvolumes cfg output).2 (by rw [a2]; exact hsel)
    obtain ⟨c1, -, c3⟩ := updateDiskInfo_frame cfg env
      ((UI.updateSubvolumes { ui with calls := ui.calls ++ [listCmd cfg.defaultBtrfsPath] }
        (parseSubvolumes cfg output).1).updateSnapshots (parseSubvolumes cfg output).1
        (parseSubvolumes cfg output).2)
    obtain ⟨rest1, c4⟩ := updateDiskInfo_calls cfg env
      ((UI.updateSubvolumes { ui with calls := ui.calls ++ [listCmd cfg.defaultBtrfsPath] }
        (parseSubvolumes cfg output).1).updateSnapshots (parseSubvolumes cfg output).1
        (parseSubvolumes cfg output).2)
    obtain ⟨ui2, d1, d2, -, d4, rest2, d5⟩ := updateSnapshotInfo_frame cfg env
      (((UI.updateSubvolumes { ui with calls := ui.calls ++ [listCmd cfg.defaultBtrfsPath] }
        (parseSubvolumes cfg output).1).updateSnapshots (parseSubvolumes cfg output).1
        (parseSubvolumes cfg output).2).updateDiskInfo cfg env)
      (by rw [c1]; exact b4)
    refine ⟨ui2, rest1 ++ rest2, d1, ?_, ?_, ?_⟩
    · rw [d5, c4, b1, a4]
      simp
    · rw [d4, c3, b2, a3]
    · rw [d2, c1]
      exact b4

/-! ## The timestamp -/

theorem digitChar_eq_digit (d : Nat) (h : d < 10) : Nat.digitChar d = digit d := by
  revert d
  decide

theorem toDigitsCore_step (fuel n : Nat) (ds : List Char) :
    Nat.toDigitsCore 10 (fuel + 1) n ds =
      if n / 10 = 0 then Nat.digitChar (n % 10) :: ds
      else Nat.toDigitsCore 10 fuel (n / 10) (Nat.digitChar (n % 10) :: ds) := by
  simp [Nat.toDigitsCore]

/-- The decimal digits of a number below 10000, most significant first. -/
theorem toDigits_small (n : Nat) (h : n < 10000) :
    Nat.toDigits 10 n =
      if n < 10 then [digit n]
      else if n < 100 then [digit (n / 10), digit n]
      else if n < 1000 then [digit (n / 100), digit (n / 10), digit n]
      else [digit (n / 1000), digit (n / 100), digit (n / 10), digit n] := by
  have hd : ∀ m, Nat.digitChar (m % 10) = digit m := by
    intro m
    rw [digitChar_eq_digit _ (Nat.mod_lt _ (by decide))]
    simp [digit]
  unfold Nat.toDigits
  by_cases h1 : n < 10
  · rw [if_pos h1, toDigitsCore_step, if_pos (by omega), hd]
  · rw [if_neg h1]
    obtain ⟨m, rfl⟩ : ∃ m, n = m + 4 := ⟨n - 4, by omega⟩
    by_cases h2 : m + 4 < 100
    · rw [if_pos h2, toDigitsCore_step, if_neg (by omega), toDigitsCore_step, if_pos (by omega),
        hd, hd]
    · rw [if_neg h2]
      by_cases h3 : m + 4 < 1000
      · rw [if_pos h3, toDigitsCore_step, if_neg (by omega), toDigitsCore_step,
          if_neg (by omega), toDigitsCore_step, if_pos (by omega), hd, hd, hd,
          Nat.div_div_eq_div_mul]
      · rw [if_neg h3, toDigitsCore_step, if_neg (by omega), toDigitsCore_step,
          if_neg (by omega), toDigitsCore_step, if_neg (by omega), toDigitsCore_step,
          if_pos (by omega), hd, hd, hd, hd, Nat.div_div_eq_div_mul, Nat.div_div_eq_div_mul,
          Nat.div_div_eq_div_mul]

theorem digit_zero_of_lt (n k : Nat) (h : n < k) : digit (n / k) = '0' := by
  rw [Nat.div_eq_of_lt h]
  rfl

theorem appendInt_two (n : Nat) (h : n < 100) :
    appendInt n 2 = String.mk [digit (n / 10), digit n] := by
  unfold appendInt Nat.repr
  rw [toDigits_small n (by omega)]
  by_cases h1 : n < 10
  · simp [h1, List.asString, digit_zero_of_lt n 10 h1]
    rfl
  · simp [h1, h, List.asString]

theorem appendInt_four (n : Nat) (h : n < 10000) :
    appendInt n 4 = String.mk [digit (n / 1000), digit (n / 100), digit (n / 10), digit n] := by
  unfold appendInt Nat.repr
  rw [toDigits_small n h]
  by_cases h1 : n < 10
  · simp [h1, List.asString, digit_zero_of_lt n 10 h1, digit_zero_of_lt n 100 (by omega),
      digit_zero_of_lt n 1000 (by omega)]
    rfl
  · by_cases h2 : n < 100
    · simp [h1, h2, List.asString, digit_zero_of_lt n 100 h2, digit_zero_of_lt n 1000 (by omega)]
      rfl
    · by_cases h3 : n < 1000
      · simp [h1, h2, h3, List.asString, digit_zero_of_lt n 1000 h3]
        rfl
      · simp [h1, h2, h3, List.asString]

theorem CreateSnapshot_calls (env : Env) (src dst : String) (calls : List Cmd) :
    (CreateSnapshot env src dst calls).2 = calls ++ [snapshotCmd src dst] := by
  unfold CreateSnapshot
  split <;> rfl

/-- C8. With no dialog open and a volume `V` under the cursor of the volume
list that has a second `/`-segment with base `base`: `createSnapshot` runs no
command, opens the confirmation and binds its Enter key to the create closure.
Committing it at the instant `now` returns, and the first external command it
runs is `btrfs subvolume snapshot` with source `R/V` and destination
`R/<snapshotPrefix>/<base>-<now in the layout 20060102-150405>`; for every
instant with a year below 10000 and the other fields below 100 that timestamp
is the fifteen characters `YYYYMMDD-HHMMSS` of `timestampSpec`.
The snapshot cursor is taken to be valid, as it is in every state of a run
(`Reachable_valid`), so that the refresh after a successful command returns. -/
theorem createSnapshot_commit_paths (cfg : Config) (env : Env) (now : Time) (ui : UI)
    (V base : String)
    (hdlg : ui.isDialogVisible = false)
    (hsel : ui.subvolumesData.GetSelected = some V)
    (hkey : groupKey V = some base)
    (hcur : ui.snapshotsData.Valid) :
    ∃ ui1, ui.createSnapshot = some (ui1, none) ∧
      ui1.isDialogVisible = true ∧
      ui1.calls = ui.calls ∧
      ui1.gui.keybindings = ui.gui.keybindings ++
        [⟨viewDialog, Key.enter, Handler.confirmEnter (Action.create V base)⟩,
          ⟨viewDialog, Key.rune 'c', Handler.confirmCancel⟩] ∧
      ∃ ui2 err rest,
        UI.runHandler cfg env now ui1 (some viewDialog)
          (Handler.confirmEnter (Action.create V base)) = some (ui2, err) ∧
        ui2.calls = ui.calls ++
          (⟨"btrfs", ["subvolume", "snapshot", cfg.defaultBtrfsPath ++ "/" ++ V,
            cfg.defaultBtrfsPath ++ "/" ++ cfg.snapshotPrefix ++ "/" ++ base ++ "-" ++
              now.Format]⟩ : Cmd) :: rest ∧
        (now.year < 10000 → now.month < 100 → now.day < 100 → now.hour < 100 →
          now.minute < 100 → now.second < 100 →
          ui2.calls = ui.calls ++
            (⟨"btrfs", ["subvolume", "snapshot", cfg.defaultBtrfsPath ++ "/" ++ V,
              cfg.defaultBtrfsPath ++ "/" ++ cfg.snapshotPrefix ++ "/" ++ base ++ "-" ++
                timestampSpec now]⟩ : Cmd) :: rest) := by
  have hempty : groupKey "" = none := by decide
  have hV : V ≠ "" := by
    intro he
    rw [he, hempty] at hkey
    cases hkey
  have hlen : ¬ ui.subvolumesData.items.length = 0 := by
    intro h
    unfold ViewData.GetSelected at hsel
    rw [if_pos h] at hsel
    exact hV (Option.some.inj hsel).symm
  obtain ⟨s1, s2, -, -, s5, s6, s7, -, -⟩ := showConfirmationDialog_spec ui
    ("Are you sure you want to create snapshot for:\n" ++ V ++ "?") (Action.create V base)
  obtain ⟨-, -, -, c4, c5, -⟩ := closeDialog_spec
    (ui.showConfirmationDialog
      ("Are you sure you want to create snapshot for:\n" ++ V ++ "?") (Action.create V base)).1
  refine ⟨(ui.showConfirmationDialog
      ("Are you sure you want to create snapshot for:\n" ++ V ++ "?") (Action.create V base)).1,
    ?_, s2, s6, s7, ?_⟩
  · unfold UI.createSnapshot
    simp only [hlen, hdlg, hsel, hV, hkey, if_false, false_or, Bool.false_eq_true]
    rw [← s1]
  · generalize hst : (UI.closeDialog (ui.showConfirmationDialog
      ("Are you sure you want to create snapshot for:\n" ++ V ++ "?")
      (Action.create V base)).1).1 = st at c4 c5
    rw [s5] at c4
    rw [s6] at c5
    have hrun : UI.runHandler cfg env now (ui.showConfirmationDialog
        ("Are you sure you want to create snapshot for:\n" ++ V ++ "?")
        (Action.create V base)).1 (some viewDialog)
        (Handler.confirmEnter (Action.create V base)) =
        st.runAction cfg env now (Action.create V base) := by
      rw [← hst]
      rfl
    rw [hrun]
    have hdst : cfg.defaultBtrfsPath ++ "/" ++
        (cfg.snapshotPrefix ++ "/" ++ base ++ "-" ++ now.Format) =
        cfg.defaultBtrfsPath ++ "/" ++ cfg.snapshotPrefix ++ "/" ++ base ++ "-" ++
          now.Format := by
      simp only [String.append_assoc]
    have hcalls := CreateSnapshot_calls env (cfg.defaultBtrfsPath ++ "/" ++ V)
      (cfg.defaultBtrfsPath ++ "/" ++
        (cfg.snapshotPrefix ++ "/" ++ base ++ "-" ++ now.Format)) st.calls
    have hfinish : ∀ (ui2 : UI) (rest : List Cmd),
        ui2.calls = ui.calls ++
          (⟨"btrfs", ["subvolume", "snapshot", cfg.defaultBtrfsPath ++ "/" ++ V,
            cfg.defaultBtrfsPath ++ "/" ++ cfg.snapshotPrefix ++ "/" ++ base ++ "-" ++
              now.Format]⟩ : Cmd) :: rest →
        (now.year < 10000 → now.month < 100 → now.day < 100 → now.hour < 100 →
          now.minute < 100 → now.second < 100 →
          ui2.calls = ui.calls ++
            (⟨"btrfs", ["subvolume", "snapshot", cfg.defaultBtrfsPath ++ "/" ++ V,
              cfg.defaultBtrfsPath ++ "/" ++ cfg.snapshotPrefix ++ "/" ++ base ++ "-" ++
                timestampSpec now]⟩ : Cmd) :: rest) := by
      intro ui2 rest h hy hmo hd hh hmi hs
      have hfmt : now.Format = timestampSpec now := by
        unfold Time.Format timestampSpec
        rw [appendInt_four _ hy, appendInt_two _ hmo, appendInt_two _ hd, appendInt_two _ hh,
          appendInt_two _ hmi, appendInt_two _ hs]
        rfl
      rw [← hfmt]
      exact h
    unfold UI.runAction
    simp only []
    cases hres : CreateSnapshot env (cfg.defaultBtrfsPath ++ "/" ++ V)
      (cfg.defaultBtrfsPath ++ "/" ++
        (cfg.snapshotPrefix ++ "/" ++ base ++ "-" ++ now.Format)) st.calls with
    | mk res calls =>
      rw [hres] at hcalls
      simp only [] at hcalls
      rw [hdst, c5] at hcalls
      have hcalls2 : calls = ui.calls ++
          [(⟨"btrfs", ["subvolume", "snapshot", cfg.defaultBtrfsPath ++ "/" ++ V,
            cfg.defaultBtrfsPath ++ "/" ++ cfg.snapshotPrefix ++ "/" ++ base ++ "-" ++
              now.Format]⟩ : Cmd)] := hcalls
      cases res with
      | some e =>
        exact ⟨_, _, [], rfl, hcalls2, hfinish _ [] hcalls2⟩
      | none =>
        simp only []
        obtain ⟨ui2, rest, r1, r2, -, -⟩ := UpdateViewContent_returns cfg env
          { st with calls := calls } (by rw [c4]; exact hcur)
        rw [r1]
        have hfull : ui2.calls = ui.calls ++
            (⟨"btrfs", ["subvolume", "snapshot", cfg.defaultBtrfsPath ++ "/" ++ V,
              cfg.defaultBtrfsPath ++ "/" ++ cfg.snapshotPrefix ++ "/" ++ base ++ "-" ++
                now.Format]⟩ : Cmd) :: listCmd cfg.defaultBtrfsPath :: rest := by
          rw [r2]
          simp only []
          rw [hcalls2]
          simp
        exact ⟨ui2, none, listCmd cfg.defaultBtrfsPath :: rest, rfl, hfull,
          hfinish _ _ hfull⟩

set_option maxRecDepth 100000 in
/-- C8, in the scenario of the specification: volume `_active/web-1`, default
prefix, commit at 2024-01-02 03:04:05; and the same commit at
1999-12-31 23:59:58, both also by evaluation of the handlers. -/
theorem createSnapshot_commit_paths_witness :
    (∃ ui1 ui2 err rest, (scenarioUI 0).createSnapshot = some (ui1, none) ∧
      UI.runHandler scenarioConfig scenarioEnv scenarioNow ui1 (some viewDialog)
        (Handler.confirmEnter (Action.create "_active/web-1" "web")) = some (ui2, err) ∧
      ui2.calls =
        (⟨"btrfs", ["subvolume", "snapshot", "/mnt/_active/web-1",
          "/mnt/_snapshots/web-20240102-030405"]⟩ : Cmd) :: rest) ∧
    (∃ ui1 ui2 err rest, (scenarioUI 0).createSnapshot = some (ui1, none) ∧
      UI.runHandler scenarioConfig scenarioEnv eveningNow ui1 (some viewDialog)
        (Handler.confirmEnter (Action.create "_active/web-1" "web")) = some (ui2, err) ∧
      ui2.calls =
        (⟨"btrfs", ["subvolume", "snapshot", "/mnt/_active/web-1",
          "/mnt/_snapshots/web-19991231-235958"]⟩ : Cmd) :: rest) ∧
    ((scenarioUI 0).createSnapshot.bind fun r =>
      (UI.runHandler scenarioConfig scenarioEnv scenarioNow r.1 (some viewDialog)
        (Handler.confirmEnter (Action.create "_active/web-1" "web"))).map
        fun r2 => r2.1.calls.head?) =
      some (some ⟨"btrfs", ["subvolume", "snapshot", "/mnt/_active/web-1",
        "/mnt/_snapshots/web-20240102-030405"]⟩) ∧
    ((scenarioUI 0).createSnapshot.bind fun r =>
      (UI.runHandler scenarioConfig scenarioEnv eveningNow r.1 (some viewDialog)
        (Handler.confirmEnter (Action.create "_active/web-1" "web"))).map
        fun r2 => r2.1.calls.head?) =
      some (some ⟨"btrfs", ["subvolume", "snapshot", "/mnt/_active/web-1",
        "/mnt/_snapshots/web-19991231-235958"]⟩) := by
  refine ⟨?_, ?_, by decide, by decide⟩
  · obtain ⟨ui1, h1, -, -, -, ui2, err, rest, h2, -, h3⟩ :=
      createSnapshot_commit_paths scenarioConfig scenarioEnv scenarioNow (scenarioUI 0)
        "_active/web-1" "web" (by decide) (by decide) (by decide) (by decide)
    have h4 := h3 (by decide) (by decide) (by decide) (by decide) (by decide) (by decide)
    have hcmd : (scenarioUI 0).calls ++
        (⟨"btrfs", ["subvolume", "snapshot", scenarioConfig.defaultBtrfsPath ++ "/" ++
          "_active/web-1",
          scenarioConfig.defaultBtrfsPath ++ "/" ++ scenarioConfig.snapshotPrefix ++ "/" ++ "web" ++
            "-" ++ timestampSpec scenarioNow]⟩ : Cmd) :: rest =
        (⟨"btrfs", ["subvolume", "snapshot", "/mnt/_active/web-1",
          "/mnt/_snapshots/web-20240102-030405"]⟩ : Cmd) :: rest := by
      have : (⟨"btrfs", ["subvolume", "snapshot", scenarioConfig.defaultBtrfsPath ++ "/" ++
          "_active/web-1",
          scenarioConfig.defaultBtrfsPath ++ "/" ++ scenarioConfig.snapshotPrefix ++ "/" ++ "web" ++
            "-" ++ timestampSpec scenarioNow]⟩ : Cmd) =
          ⟨"btrfs", ["subvolume", "snapshot", "/mnt/_active/web-1",
            "/mnt/_snapshots/web-20240102-030405"]⟩ := by decide
      rw [this]
      rfl
    exact ⟨ui1, ui2, err, rest, h1, h2, h4.trans hcmd⟩
  · obtain ⟨ui1, h1, -, -, -, ui2, err, rest, h2, -, h3⟩ :=
      createSnapshot_commit_paths scenarioConfig scenarioEnv eveningNow (scenarioUI 0)
        "_active/web-1" "web" (by decide) (by decide) (by decide) (by decide)
    have h4 := h3 (by decide) (by decide) (by decide) (by decide) (by decide) (by decide)
    have hcmd : (scenarioUI 0).calls ++
        (⟨"btrfs", ["subvolume", "snapshot", scenarioConfig.defaultBtrfsPath ++ "/" ++
          "_active/web-1",
          scenarioConfig.defaultBtrfsPath ++ "/" ++ scenarioConfig.snapshotPrefix ++ "/" ++ "web" ++
            "-" ++ timestampSpec eveningNow]⟩ : Cmd) :: rest =
        (⟨"btrfs", ["subvolume", "snapshot", "/mnt/_active/web-1",
          "/mnt/_snapshots/web-19991231-235958"]⟩ : Cmd) :: rest := by
      have : (⟨"btrfs", ["subvolume", "snapshot", scenarioConfig.defaultBtrfsPath ++ "/" ++
          "_active/web-1",
          scenarioConfig.defaultBtrfsPath ++ "/" ++ scenarioConfig.snapshotPrefix ++ "/" ++ "web" ++
            "-" ++ timestampSpec eveningNow]⟩ : Cmd) =
          ⟨"btrfs", ["subvolume", "snapshot", "/mnt/_active/web-1",
            "/mnt/_snapshots/web-19991231-235958"]⟩ := by decide
      rw [this]
      rfl
    exact ⟨ui1, ui2, err, rest, h1, h2, h4.trans hcmd⟩

/-! ## Switching the focus -/

theorem View_setHighlights_isSome (g : Gui) (current target : String) :
    ((UI.setHighlights g current).View target).isSome = (g.View target).isSome := by
  unfold UI.setHighlights
  simp only [List.foldl_cons, List.foldl_nil]
  rw [View_modify_isSome _ viewSnapshots target
      (fun v => { v with highlight := decide (viewSnapshots = current) }) (fun _ => rfl),
    View_modify_isSome _ viewSubvolumes target
      (fun v => { v with highlight := decide (viewSubvolumes = current) }) (fun _ => rfl)]

theorem View_Clear_self (g : Gui) (name : String) (v : View)
    (h : (g.Clear name).View name = some v) : v.buffer = "" := by
  unfold Gui.Clear at h
  rw [View_modify g name name (fun v => { v with buffer := "" }) (fun _ => rfl)] at h
  cases hv : g.View name with
  | none => rw [hv] at h; cases h
  | some w =>
    rw [hv] at h
    have hw := View_name g name w hv
    simp only [Option.map_some', hw, if_true] at h
    rw [← Option.some.inj h]

/-- Away from the snapshots pane `updateSnapshotInfo` only clears the
snapshot information view. -/
theorem updateSnapshotInfo_unfocused (cfg : Config) (env : Env) (ui : UI)
    (h : ui.currentView ≠ viewSnapshots) :
    ui.updateSnapshotInfo cfg env =
      some { ui with
        gui :=
          match ui.gui.View viewSnapshotInfo with
          | none => ui.gui
          | some _ => ui.gui.Clear viewSnapshotInfo } := by
  unfold UI.updateSnapshotInfo
  rw [if_pos h]
  cases ui.gui.View viewSnapshotInfo <;> rfl

/-- C9, as the code has it. With no dialog open and both panes present,
`nextView` and `prevView` do the same. From the volumes pane they move the
focus to the snapshots pane and run a full `UpdateViewContent`, whose first
command is the listing. From the snapshots pane they move the focus to the
volumes pane and only run `updateSnapshotInfo`, which clears the snapshot
information view: no command is run and both lists stay as they were.
The snapshot cursor is taken to be valid, as it is in every state of a run
(`Reachable_valid`), so that the refresh returns. -/
theorem switch_focus_refresh (cfg : Config) (env : Env) (ui : UI)
    (hdlg : ui.isDialogVisible = false)
    (hvol : (ui.gui.View viewSubvolumes).isSome = true)
    (hsnap : (ui.gui.View viewSnapshots).isSome = true)
    (hcur : ui.snapshotsData.Valid) :
    ui.nextView cfg env = ui.prevView cfg env ∧
    (ui.currentView = viewSubvolumes →
      ui.nextView cfg env =
        (UI.UpdateViewContent cfg env
          { ui with
            currentView := viewSnapshots,
            gui := UI.setHighlights { ui.gui with currentView := some viewSnapshots }
              viewSnapshots }).map (fun u => (u.updateHotkeys, none)) ∧
      ∃ ui2 rest, ui.nextView cfg env = some (ui2, none) ∧
        ui2.currentView = viewSnapshots ∧
        ui2.calls = ui.calls ++ listCmd cfg.defaultBtrfsPath :: rest) ∧
    (ui.currentView = viewSnapshots →
      ∃ ui2, ui.nextView cfg env = some (ui2, none) ∧
        ui2.currentView = viewSubvolumes ∧
        ui2.calls = ui.calls ∧
        ui2.subvolumesData = ui.subvolumesData ∧
        ui2.snapshotsData = ui.snapshotsData ∧
        ∀ v, ui2.gui.View viewSnapshotInfo = some v → v.buffer = "") := by
  have hsame : UI.nextOf [viewSubvolumes, viewSnapshots] ui.currentView =
      UI.prevOf [viewSubvolumes, viewSnapshots] ui.currentView := by
    unfold UI.nextOf UI.prevOf
    by_cases h1 : ui.currentView = viewSubvolumes
    · rw [h1]; decide
    · by_cases h2 : ui.currentView = viewSnapshots
      · rw [h2]; decide
      · have h1s : ¬ viewSubvolumes = ui.currentView := fun e => h1 e.symm
        have h2s : ¬ viewSnapshots = ui.currentView := fun e => h2 e.symm
        simp [List.indexOf_cons, h1s, h2s]
  refine ⟨?_, ?_, ?_⟩
  · unfold UI.nextView UI.prevView
    rw [hsame]
  · intro hfocus
    have hnext : UI.nextOf [viewSubvolumes, viewSnapshots] ui.currentView = viewSnapshots := by
      rw [hfocus]; decide
    have hstep : ui.nextView cfg env =
        (UI.UpdateViewContent cfg env
          { ui with
            currentView := viewSnapshots,
            gui := UI.setHighlights { ui.gui with currentView := some viewSnapshots }
              viewSnapshots }).map (fun u => (u.updateHotkeys, none)) := by
      unfold UI.nextView
      rw [hdlg, hnext]
      simp only [Bool.false_eq_true, if_false]
      unfold UI.afterSwitch
      simp only [SetCurrentView_of_isSome ui.gui viewSnapshots hsnap, if_true]
    refine ⟨hstep, ?_⟩
    obtain ⟨ui2, rest, r1, r2, r3, -⟩ := UpdateViewContent_returns cfg env
      { ui with
        currentView := viewSnapshots,
        gui := UI.setHighlights { ui.gui with currentView := some viewSnapshots } viewSnapshots }
      hcur
    refine ⟨ui2.updateHotkeys, rest, ?_, ?_, ?_⟩
    · rw [hstep, r1]
      rfl
    · rw [(updateHotkeys_frame ui2).1, r3]
    · rw [(updateHotkeys_frame ui2).2.2.2.1, r2]
  · intro hfocus
    have hnext : UI.nextOf [viewSubvolumes, viewSnapshots] ui.currentView = viewSubvolumes := by
      rw [hfocus]; decide
    have hne : viewSubvolumes ≠ viewSnapshots := by decide
    have hstep : ui.nextView cfg env =
        some (UI.updateHotkeys
          { ui with
            currentView := viewSubvolumes,
            gui :=
              match (UI.setHighlights { ui.gui with currentView := some viewSubvolumes }
                viewSubvolumes).View viewSnapshotInfo with
              | none => UI.setHighlights { ui.gui with currentView := some viewSubvolumes }
                  viewSubvolumes
              | some _ => (UI.setHighlights { ui.gui with currentView := some viewSubvolumes }
                  viewSubvolumes).Clear viewSnapshotInfo }, none) := by
      unfold UI.nextView
      rw [hdlg, hnext]
      simp only [Bool.false_eq_true, if_false]
      unfold UI.afterSwitch
      simp only [SetCurrentView_of_isSome ui.gui viewSubvolumes hvol, if_neg hne]
      rw [updateSnapshotInfo_unfocused cfg env _ hne]
      rfl
    rw [hstep]
    refine ⟨_, rfl, ?_, ?_, ?_, ?_, ?_⟩
    · rw [(updateHotkeys_frame _).1]
    · rw [(updateHotkeys_frame _).2.2.2.1]
    · rw [(updateHotkeys_frame _).2.1]
    · rw [(updateHotkeys_frame _).2.2.1]
    · intro v hv
      rw [(updateHotkeys_frame _).2.2.2.2.2.2.2 viewSnapshotInfo (by decide)] at hv
      simp only [] at hv
      cases hi : (UI.setHighlights { ui.gui with currentView := some viewSubvolumes }
          viewSubvolumes).View viewSnapshotInfo with
      | none =>
        rw [hi] at hv
        simp only [] at hv
        rw [hi] at hv
        cases hv
      | some w =>
        rw [hi] at hv
        exact View_Clear_self _ _ v hv

/-- C9, in the scenario: from the volumes pane the switch starts with the
listing; from the snapshots pane it runs nothing and keeps the lists. -/
theorem switch_focus_refresh_witness :
    (∃ ui2 rest, (scenarioUI 0).nextView scenarioConfig scenarioEnv = some (ui2, none) ∧
      ui2.currentView = viewSnapshots ∧ ui2.calls = listCmd "/mnt" :: rest) ∧
    (∃ ui2, scenarioSnapshotsUI.nextView scenarioConfig scenarioEnv = some (ui2, none) ∧
      ui2.currentView = viewSubvolumes ∧ ui2.calls = [] ∧
      ui2.subvolumesData = scenarioSnapshotsUI.subvolumesData ∧
      ui2.snapshotsData = scenarioSnapshotsUI.snapshotsData ∧
      ∀ v, ui2.gui.View viewSnapshotInfo = some v → v.buffer = "") :=
  ⟨((switch_focus_refresh scenarioConfig scenarioEnv (scenarioUI 0) (by decide) (by decide)
      (by decide) (by decide)).2.1 rfl).2,
    (switch_focus_refresh scenarioConfig scenarioEnv scenarioSnapshotsUI (by decide) (by decide)
      (by decide) (by decide)).2.2 rfl⟩

/-- C9 as stated fails, in both directions: switching to the volumes pane
runs no command at all, so no refresh; switching to the snapshots pane runs
the listing, `df`, the listing again and the snapshot information, and shows
the snapshots of the selected volume. -/
theorem switch_focus_refresh_reversed :
    (scenarioSnapshotsUI.nextView scenarioConfig scenarioEnv).map
        (fun r => (r.1.currentView, r.1.calls)) = some (viewSubvolumes, []) ∧
    (scenarioSnapshotsUI.prevView scenarioConfig scenarioEnv).map
        (fun r => (r.1.currentView, r.1.calls)) = some (viewSubvolumes, []) ∧
    ((scenarioUI 0).nextView scenarioConfig scenarioEnv).map
        (fun r => (r.1.currentView, r.1.calls, r.1.snapshotsData.items)) =
      some (viewSnapshots,
        [listCmd "/mnt", dfCmd "/mnt", listCmd "/mnt",
          showCmd "/mnt/_snapshots/web-20240101-000000"],
        ["_snapshots/web-20240101-000000"]) ∧
    ((scenarioUI 0).prevView scenarioConfig scenarioEnv).map
        (fun r => (r.1.currentView, r.1.calls, r.1.snapshotsData.items)) =
      some (viewSnapshots,
        [listCmd "/mnt", dfCmd "/mnt", listCmd "/mnt",
          showCmd "/mnt/_snapshots/web-20240101-000000"],
        ["_snapshots/web-20240101-000000"]) := by
  decide

/-! ## A failing listing -/

theorem View_Clear_Fprint_self (g : Gui) (name text : String) (v : View)
    (h : ((g.Clear name).Fprint name text).View name = some v) : v.buffer = text := by
  unfold Gui.Fprint at h
  rw [View_modify (g.Clear name) name name (fun v => { v with buffer := v.buffer ++ text })
    (fun _ => rfl)] at h
  cases hv : (g.Clear name).View name with
  | none => rw [hv] at h; cases h
  | some w =>
    rw [hv] at h
    have hw := View_name _ name w hv
    have hb := View_Clear_self g name w hv
    simp only [Option.map_some', hw, if_true] at h
    rw [← Option.some.inj h]
    simp [hb]

/-- C10, as the code has it. When the listing fails, `UpdateViewContent`
writes the error text into the subvolumes view and returns at once: the
listing is the only command run, so the disk usage is not fetched; every
other view, both lists and the focus are as before. -/
theorem UpdateViewContent_listing_error (cfg : Config) (env : Env) (ui : UI) (err : String)
    (hlist : env.run ui.calls (listCmd cfg.defaultBtrfsPath) = .error err) :
    ∃ ui2, ui.UpdateViewContent cfg env = some ui2 ∧
      ui2.calls = ui.calls ++ [listCmd cfg.defaultBtrfsPath] ∧
      dfCmd cfg.defaultBtrfsPath ∉ ui2.calls.drop ui.calls.length ∧
      ui2.subvolumesData = ui.subvolumesData ∧
      ui2.snapshotsData = ui.snapshotsData ∧
      ui2.currentView = ui.currentView ∧
      (ui2.gui.View viewSubvolumes).isSome = (ui.gui.View viewSubvolumes).isSome ∧
      (∀ v, ui2.gui.View viewSubvolumes = some v → v.buffer = "Error: " ++ err) ∧
      (∀ target, target ≠ viewSubvolumes → ui2.gui.View target = ui.gui.View target) := by
  rw [UpdateViewContent_error cfg env ui err hlist]
  refine ⟨_, rfl, rfl, ?_, rfl, rfl, rfl, ?_, ?_, ?_⟩
  · simp only [List.drop_left, List.mem_singleton]
    intro h
    have hname : "df" = "btrfs" := congrArg Cmd.name h
    exact absurd hname (by decide)
  · cases hv : ui.gui.View viewSubvolumes with
    | none => simp [hv]
    | some w => simp only [View_Fprint_isSome, View_Clear_isSome, hv]
  · intro v hv
    cases hw : ui.gui.View viewSubvolumes with
    | none =>
      rw [hw] at hv
      simp only [] at hv
      rw [hw] at hv
      cases hv
    | some w =>
      rw [hw] at hv
      exact View_Clear_Fprint_self _ _ _ v hv
  · intro target hne
    cases hw : ui.gui.View viewSubvolumes with
    | none => rfl
    | some w =>
      simp only []
      rw [View_Fprint_other _ _ _ _ hne, View_Clear_other _ _ _ hne]

/-- C10, in a world where only the listing fails: the subvolumes view shows
the error and the listing is the one command run. -/
theorem UpdateViewContent_listing_error_witness :
    ∃ ui2, (scenarioUI 0).UpdateViewContent scenarioConfig listingFailsEnv = some ui2 ∧
      ui2.calls = [listCmd "/mnt"] ∧
      (∀ v, ui2.gui.View viewSubvolumes = some v → v.buffer = "Error: exit status 1") := by
  obtain ⟨ui2, h1, h2, -, -, -, -, -, h3, -⟩ :=
    UpdateViewContent_listing_error scenarioConfig listingFailsEnv (scenarioUI 0)
      "exit status 1" rfl
  exact ⟨ui2, h1, h2, h3⟩

/-- C10 as stated fails: the listing fails, `df` would succeed, and after
`UpdateViewContent` the only command run is the listing and the disk
information view is still empty. -/
theorem UpdateViewContent_stops_on_listing_error :
    listingFailsEnv.run [listCmd "/mnt"] (dfCmd "/mnt") =
      .ok "Filesystem Size Used Avail Use% Mounted on\n/dev/sda1 100G 40G 60G 40% /mnt\n" ∧
    ((scenarioUI 0).UpdateViewContent scenarioConfig listingFailsEnv).map
        (fun u => (u.calls, (u.gui.View viewSubvolumes).map (fun v => v.buffer),
          (u.gui.View viewDiskInfo).map (fun v => v.buffer))) =
      some ([listCmd "/mnt"], some "Error: exit status 1", some "") ∧
    ((scenarioUI 0).UpdateViewContent scenarioConfig scenarioEnv).map
        (fun u => (u.calls, (u.gui.View viewDiskInfo).map (fun v => v.buffer))) =
      some ([listCmd "/mnt", dfCmd "/mnt"],
        some "FS: /dev/sda1  Size: 100G  Used: 40G (40%)  Avail: 60G\n") :=
  ⟨rfl, by decide, by decide⟩

/-! ## The cursors stay inside their lists and no handler panics -/

theorem MoveUp_valid (vd : ViewData) (h : vd.Valid) : vd.MoveUp.Valid := by
  unfold ViewData.MoveUp
  split_ifs with h1
  · intro hne
    have := h hne
    simp only [] at hne this ⊢
    omega
  · exact h

theorem MoveDown_valid (vd : ViewData) (h : vd.Valid) : vd.MoveDown.Valid := by
  unfold ViewData.MoveDown
  split_ifs with h1
  · intro hne
    have := h hne
    simp only [] at hne this ⊢
    omega
  · exact h

theorem SetItems_valid (vd : ViewData) (items : List String) : (vd.SetItems items).Valid := by
  intro hne
  rw [SetItems_items] at hne ⊢
  exact SetItems_inRange vd items hne

theorem GetSelected_of_valid (vd : ViewData) (h : vd.Valid) :
    ∃ item, vd.GetSelected = some item := by
  unfold ViewData.GetSelected
  by_cases hlen : vd.items.length = 0
  · rw [if_pos hlen]
    exact ⟨_, rfl⟩
  · rw [if_neg hlen]
    have hne : vd.items ≠ [] := fun e => hlen (by rw [e]; rfl)
    obtain ⟨x, hx, -⟩ := index_of_range _ _ (h hne).1 (h hne).2
    exact ⟨x, hx⟩

/-- A refresh from a state with valid cursors returns a state with valid
cursors. -/
theorem UpdateViewContent_valid (cfg : Config) (env : Env) (ui : UI)
    (hv : ui.subvolumesData.Valid) (hs : ui.snapshotsData.Valid) :
    ∃ ui2, ui.UpdateViewContent cfg env = some ui2 ∧
      ui2.subvolumesData.Valid ∧ ui2.snapshotsData.Valid := by
  obtain ⟨ui2, rest, r1, -, -, r4⟩ := UpdateViewContent_returns cfg env ui hs
  refine ⟨ui2, r1, ?_, r4⟩
  cases hl : env.run ui.calls (listCmd cfg.defaultBtrfsPath) with
  | error err =>
    rw [UpdateViewContent_error cfg env ui err hl] at r1
    rw [← Option.some.inj r1]
    exact hv
  | ok output =>
    rw [UpdateViewContent_ok cfg env ui output hl] at r1
    obtain ⟨a1, -, -, -, -⟩ :=
      updateSubvolumes_frame { ui with calls := ui.calls ++ [listCmd cfg.defaultBtrfsPath] }
        (parseSubvolumes cfg output).1
    obtain ⟨-, -, b3, -⟩ := updateSnapshots_frame
      (UI.updateSubvolumes { ui with calls := ui.calls ++ [listCmd cfg.defaultBtrfsPath] }
        (parseSubvolumes cfg output).1)
      (parseSubvolumes cfg output).1 (parseSubvolumes cfg output).2
      (by rw [(updateSubvolumes_frame _ _).2.1]; exact hs)
    obtain ⟨-, c2, -⟩ := updateDiskInfo_frame cfg env
      ((UI.updateSubvolumes { ui with calls := ui.calls ++ [listCmd cfg.defaultBtrfsPath] }
        (parseSubvolumes cfg output).1).updateSnapshots (parseSubvolumes cfg output).1
        (parseSubvolumes cfg output).2)
    obtain ⟨ui3, d1, -, d3, -, -⟩ := updateSnapshotInfo_frame cfg env
      (((UI.updateSubvolumes { ui with calls := ui.calls ++ [listCmd cfg.defaultBtrfsPath] }
        (parseSubvolumes cfg output).1).updateSnapshots (parseSubvolumes cfg output).1
        (parseSubvolumes cfg output).2).updateDiskInfo cfg env)
      (by
        rw [(updateDiskInfo_frame cfg env _).1]
        exact (updateSnapshots_frame _ _ _
          (by rw [(updateSubvolumes_frame _ _).2.1]; exact hs)).2.2.2)
    rw [d1] at r1
    rw [← Option.some.inj r1, d3, c2, b3, a1]
    exact SetItems_valid _ _

/-- The informational dialog changes neither list. -/
theorem showDialog_frame (ui : UI) (message : String) :
    (ui.showDialog message).1.subvolumesData = ui.subvolumesData ∧
    (ui.showDialog message).1.snapshotsData = ui.snapshotsData ∧
    (ui.showDialog message).1.currentView = ui.currentView ∧
    (ui.showDialog message).1.calls = ui.calls := by
  unfold UI.showDialog
  simp only []
  split
  · exact ⟨rfl, rfl, rfl, rfl⟩
  · exact ⟨(updateHotkeys_frame _).2.1, (updateHotkeys_frame _).2.2.1, (updateHotkeys_frame _).1,
      (updateHotkeys_frame _).2.2.2.1⟩

theorem afterSwitch_valid (cfg : Config) (env : Env) (ui : UI)
    (hv : ui.subvolumesData.Valid) (hs : ui.snapshotsData.Valid) :
    ∃ r, ui.afterSwitch cfg env = some r ∧
      r.1.subvolumesData.Valid ∧ r.1.snapshotsData.Valid := by
  unfold UI.afterSwitch
  cases hc : ui.gui.SetCurrentView ui.currentView with
  | none => exact ⟨_, rfl, hv, hs⟩
  | some g1 =>
    simp only []
    split_ifs with hfocus
    · obtain ⟨ui2, h1, h2, h3⟩ := UpdateViewContent_valid cfg env
        { ui with gui := UI.setHighlights g1 ui.currentView } hv hs
      rw [h1]
      refine ⟨_, rfl, ?_, ?_⟩
      · rw [(updateHotkeys_frame ui2).2.1]; exact h2
      · rw [(updateHotkeys_frame ui2).2.2.1]; exact h3
    · obtain ⟨ui2, h1, h2, h3, -, -⟩ := updateSnapshotInfo_frame cfg env
        { ui with gui := UI.setHighlights g1 ui.currentView } hs
      rw [h1]
      refine ⟨_, rfl, ?_, ?_⟩
      · rw [(updateHotkeys_frame ui2).2.1, h3]; exact hv
      · rw [(updateHotkeys_frame ui2).2.2.1, h2]; exact hs

theorem runAction_valid (cfg : Config) (env : Env) (now : Time) (ui : UI)
    (confirmAction : Action)
    (hv : ui.subvolumesData.Valid) (hs : ui.snapshotsData.Valid) :
    ∃ r, ui.runAction cfg env now confirmAction = some r ∧
      r.1.subvolumesData.Valid ∧ r.1.snapshotsData.Valid := by
  cases confirmAction with
  | balance =>
    simp only [UI.runAction]
    cases ExecuteBtrfsBalance env cfg.defaultBtrfsPath ui.calls with
    | mk res calls =>
      cases res with
      | error err =>
        refine ⟨_, rfl, ?_, ?_⟩
        · rw [(showDialog_frame _ _).1]; exact hv
        · rw [(showDialog_frame _ _).2.1]; exact hs
      | ok output =>
        refine ⟨_, rfl, ?_, ?_⟩
        · rw [(showDialog_frame _ _).1]; exact hv
        · rw [(showDialog_frame _ _).2.1]; exact hs
  | delete selectedSnapshot =>
    simp only [UI.runAction]
    cases DeleteSnapshot env (cfg.defaultBtrfsPath ++ "/" ++ selectedSnapshot) ui.calls with
    | mk res calls =>
      cases res with
      | some err => exact ⟨_, rfl, hv, hs⟩
      | none =>
        obtain ⟨ui2, h1, h2, h3⟩ :=
          UpdateViewContent_valid cfg env { ui with calls := calls } hv hs
        simp only [h1]
        exact ⟨_, rfl, h2, h3⟩
  | create selectedSubvol subvolBase =>
    simp only [UI.runAction]
    cases CreateSnapshot env (cfg.defaultBtrfsPath ++ "/" ++ selectedSubvol)
      (cfg.defaultBtrfsPath ++ "/" ++
        (cfg.snapshotPrefix ++ "/" ++ subvolBase ++ "-" ++ now.Format))
      ui.calls with
    | mk res calls =>
      cases res with
      | some err => exact ⟨_, rfl, hv, hs⟩
      | none =>
        obtain ⟨ui2, h1, h2, h3⟩ :=
          UpdateViewContent_valid cfg env { ui with calls := calls } hv hs
        simp only [h1]
        exact ⟨_, rfl, h2, h3⟩

/-- Every bound function, called in a state whose two cursors are valid,
returns (no index is out of range) and leaves both cursors valid. -/
theorem runHandler_valid (cfg : Config) (env : Env) (now : Time) (ui : UI)
    (v : Option String)
    (handler : Handler) (hv : ui.subvolumesData.Valid) (hs : ui.snapshotsData.Valid) :
    ∃ r, ui.runHandler cfg env now v handler = some r ∧
      r.1.subvolumesData.Valid ∧ r.1.snapshotsData.Valid := by
  cases handler with
  | quit => exact ⟨_, rfl, hv, hs⟩
  | createSnapshot =>
    show ∃ r, ui.createSnapshot = some r ∧ _
    unfold UI.createSnapshot
    obtain ⟨item, hitem⟩ := GetSelected_of_valid _ hv
    split_ifs
    · exact ⟨_, rfl, hv, hs⟩
    · rw [hitem]
      simp only []
      split_ifs
      · exact ⟨_, rfl, hv, hs⟩
      · split
        · exact ⟨_, rfl, hv, hs⟩
        · refine ⟨_, rfl, ?_, ?_⟩
          · rw [(showConfirmationDialog_spec _ _ _).2.2.2.1]; exact hv
          · rw [(showConfirmationDialog_spec _ _ _).2.2.2.2.1]; exact hs
  | deleteSnapshot =>
    show ∃ r, ui.deleteSnapshot = some r ∧ _
    unfold UI.deleteSnapshot
    obtain ⟨item, hitem⟩ := GetSelected_of_valid _ hs
    split_ifs
    · exact ⟨_, rfl, hv, hs⟩
    · rw [hitem]
      simp only []
      split_ifs
      · exact ⟨_, rfl, hv, hs⟩
      · refine ⟨_, rfl, ?_, ?_⟩
        · rw [(showConfirmationDialog_spec _ _ _).2.2.2.1]; exact hv
        · rw [(showConfirmationDialog_spec _ _ _).2.2.2.2.1]; exact hs
  | prevView =>
    show ∃ r, ui.prevView cfg env = some r ∧ _
    unfold UI.prevView
    split_ifs
    · exact ⟨_, rfl, hv, hs⟩
    · exact afterSwitch_valid cfg env _ hv hs
  | nextView =>
    show ∃ r, ui.nextView cfg env = some r ∧ _
    unfold UI.nextView
    split_ifs
    · exact ⟨_, rfl, hv, hs⟩
    · exact afterSwitch_valid cfg env _ hv hs
  | moveUp =>
    show ∃ r, ui.moveUp cfg env v = some r ∧ _
    unfold UI.moveUp
    cases v with
    | none => exact ⟨_, rfl, hv, hs⟩
    | some name =>
      simp only []
      split_ifs
      · exact ⟨_, rfl, hv, hs⟩
      · obtain ⟨ui2, h1, h2, h3⟩ := UpdateViewContent_valid cfg env
          { ui with subvolumesData := ui.subvolumesData.MoveUp,
                    gui := Render ui.subvolumesData.MoveUp ui.gui name }
          (MoveUp_valid _ hv) hs
        rw [h1]
        exact ⟨_, rfl, h2, h3⟩
      · obtain ⟨ui2, h1, h2, h3, -, -⟩ := updateSnapshotInfo_frame cfg env
          { ui with snapshotsData := ui.snapshotsData.MoveUp,
                    gui := Render ui.snapshotsData.MoveUp ui.gui name }
          (MoveUp_valid _ hs)
        rw [h1]
        refine ⟨_, rfl, ?_, ?_⟩
        · simp only [Option.map_some', h3]; exact hv
        · simp only [Option.map_some', h2]; exact MoveUp_valid _ hs
      · exact ⟨_, rfl, hv, hs⟩
  | moveDown =>
    show ∃ r, ui.moveDown cfg env v = some r ∧ _
    unfold UI.moveDown
    cases v with
    | none => exact ⟨_, rfl, hv, hs⟩
    | some name =>
      simp only []
      split_ifs
      · exact ⟨_, rfl, hv, hs⟩
      · obtain ⟨ui2, h1, h2, h3⟩ := UpdateViewContent_valid cfg env
          { ui with subvolumesData := ui.subvolumesData.MoveDown,
                    gui := Render ui.subvolumesData.MoveDown ui.gui name }
          (MoveDown_valid _ hv) hs
        rw [h1]
        exact ⟨_, rfl, h2, h3⟩
      · obtain ⟨ui2, h1, h2, h3, -, -⟩ := updateSnapshotInfo_frame cfg env
          { ui with snapshotsData := ui.snapshotsData.MoveDown,
                    gui := Render ui.snapshotsData.MoveDown ui.gui name }
          (MoveDown_valid _ hs)
        rw [h1]
        refine ⟨_, rfl, ?_, ?_⟩
        · simp only [Option.map_some', h3]; exact hv
        · simp only [Option.map_some', h2]; exact MoveDown_valid _ hs
      · exact ⟨_, rfl, hv, hs⟩
  | updateGrub =>
    refine ⟨ui.updateGrub env, rfl, ?_, ?_⟩
    · unfold UI.updateGrub
      split <;> (rw [(showDialog_frame _ _).1]; exact hv)
    · unfold UI.updateGrub
      split <;> (rw [(showDialog_frame _ _).2.1]; exact hs)
  | executeBtrfsBalance =>
    refine ⟨ui.executeBtrfsBalance, rfl, ?_, ?_⟩
    · unfold UI.executeBtrfsBalance
      rw [(showConfirmationDialog_spec _ _ _).2.2.2.1]; exact hv
    · unfold UI.executeBtrfsBalance
      rw [(showConfirmationDialog_spec _ _ _).2.2.2.2.1]; exact hs
  | dialogClose =>
    refine ⟨ui.closeDialog, rfl, ?_, ?_⟩
    · rw [(closeDialog_spec ui).2.2.1]; exact hv
    · rw [(closeDialog_spec ui).2.2.2.1]; exact hs
  | confirmEnter confirmAction =>
    show ∃ r, ui.closeDialog.1.runAction cfg env now confirmAction = some r ∧ _
    exact runAction_valid cfg env now _ confirmAction
      (by rw [(closeDialog_spec ui).2.2.1]; exact hv)
      (by rw [(closeDialog_spec ui).2.2.2.1]; exact hs)
  | confirmCancel =>
    refine ⟨ui.closeDialog, rfl, ?_, ?_⟩
    · rw [(closeDialog_spec ui).2.2.1]; exact hv
    · rw [(closeDialog_spec ui).2.2.2.1]; exact hs

theorem layoutStep_valid (cfg : Config) (env : Env) (g : Gui) (ui : UI)
    (hv : ui.subvolumesData.Valid) (hs : ui.snapshotsData.Valid) :
    ∃ ui2, UI.UpdateViewContent cfg env { ui with gui := g } = some ui2 ∧
      ui2.subvolumesData.Valid ∧ ui2.snapshotsData.Valid :=
  UpdateViewContent_valid cfg env { ui with gui := g } hv hs

/-- A layout pass from a state with valid cursors returns a state with valid
cursors. -/
theorem Layout_valid (cfg : Config) (env : Env) (ui : UI)
    (hv : ui.subvolumesData.Valid) (hs : ui.snapshotsData.Valid) :
    ∃ r, ui.Layout cfg env = some r ∧ r.1.subvolumesData.Valid ∧ r.1.snapshotsData.Valid := by
  have h0 : ui.layoutDiskInfo.subvolumesData = ui.subvolumesData ∧
      ui.layoutDiskInfo.snapshotsData = ui.snapshotsData := by
    unfold UI.layoutDiskInfo
    split <;> exact ⟨rfl, rfl⟩
  have h1 : ∃ r, UI.layoutSubvolumes cfg env ui.layoutDiskInfo = some r ∧
      r.1.subvolumesData.Valid ∧ r.1.snapshotsData.Valid := by
    unfold UI.layoutSubvolumes
    split
    · simp only []
      split
      · exact ⟨_, rfl, by rw [h0.1]; exact hv, by rw [h0.2]; exact hs⟩
      · rename_i g2 _
        obtain ⟨ui2, e1, e2, e3⟩ := layoutStep_valid cfg env g2 ui.layoutDiskInfo
          (by rw [h0.1]; exact hv) (by rw [h0.2]; exact hs)
        rw [e1]
        exact ⟨_, rfl, e2, e3⟩
    · exact ⟨_, rfl, by rw [h0.1]; exact hv, by rw [h0.2]; exact hs⟩
  obtain ⟨⟨ui1, err⟩, e1, v1, s1⟩ := h1
  unfold UI.Layout
  rw [e1]
  cases err with
  | some e => exact ⟨_, rfl, v1, s1⟩
  | none =>
    simp only []
    have h2 : ∃ ui2, UI.layoutSnapshots cfg env ui1 = some ui2 ∧
        ui2.subvolumesData.Valid ∧ ui2.snapshotsData.Valid := by
      unfold UI.layoutSnapshots
      split
      · exact layoutStep_valid cfg env _ ui1 v1 s1
      · exact ⟨_, rfl, v1, s1⟩
    obtain ⟨ui2, e2, v2, s2⟩ := h2
    rw [e2]
    simp only []
    have h3 : ∃ ui3, UI.layoutSnapshotInfo cfg env ui2 = some ui3 ∧
        ui3.subvolumesData.Valid ∧ ui3.snapshotsData.Valid := by
      unfold UI.layoutSnapshotInfo
      split
      · exact layoutStep_valid cfg env _ ui2 v2 s2
      · exact ⟨_, rfl, v2, s2⟩
    obtain ⟨ui3, e3, v3, s3⟩ := h3
    rw [e3]
    refine ⟨_, rfl, ?_, ?_⟩
    · simp only []
      unfold UI.layoutHotkeys
      split
      · rw [(updateHotkeys_frame _).2.1]; exact v3
      · exact v3
    · simp only []
      unfold UI.layoutHotkeys
      split
      · rw [(updateHotkeys_frame _).2.2.1]; exact s3
      · exact s3

/-- In every state of a run, both cursors are valid: never negative, and
below the length of a non-empty list. -/
theorem Reachable_valid (cfg : Config) (env : Env) (ui : UI) (h : Reachable cfg env ui) :
    ui.subvolumesData.Valid ∧ ui.snapshotsData.Valid := by
  induction h with
  | start => exact ⟨fun hne => absurd rfl hne, fun hne => absurd rfl hne⟩
  | layout ui ui2 _ hstep ih =>
    obtain ⟨r, e, v, s⟩ := Layout_valid cfg env ui ih.1 ih.2
    rw [hstep] at e
    rw [← Option.some.inj e] at v s
    exact ⟨v, s⟩
  | key now ui ui2 w handler _ hstep ih =>
    obtain ⟨r, e, v, s⟩ := runHandler_valid cfg env now ui w handler ih.1 ih.2
    rw [hstep] at e
    rw [← Option.some.inj e] at v s
    exact ⟨v, s⟩

/-- In every state of a run, a layout pass and every bound function return:
no index is out of range. -/
theorem Reachable_no_panic (cfg : Config) (env : Env) (ui : UI) (h : Reachable cfg env ui) :
    (∃ r, ui.Layout cfg env = some r) ∧
    ∀ now v handler, ∃ r, ui.runHandler cfg env now v handler = some r := by
  obtain ⟨hv, hs⟩ := Reachable_valid cfg env ui h
  refine ⟨?_, fun now v handler => ?_⟩
  · obtain ⟨r, e, -, -⟩ := Layout_valid cfg env ui hv hs
    exact ⟨r, e⟩
  · obtain ⟨r, e, -, -⟩ := runHandler_valid cfg env now ui v handler hv hs
    exact ⟨r, e⟩

/-! ## Navigation while a dialog is open -/

/-- C11. In every state in which the dialog view exists, whichever dialog it
is, `nextView`, `prevView`, `moveUp` and `moveDown` return `nil` and leave the
whole state as it is, for every view the toolkit passes: the focus, both
lists with their cursors, the record of commands run (no listing, so no
refresh), every view and every key binding are unchanged, and the dialog is
still open. -/
theorem navigation_suspended_by_dialog (cfg : Config) (env : Env) (now : Time) (ui : UI)
    (v : Option String) (hdlg : ui.isDialogVisible = true) :
    ui.nextView cfg env = some (ui, none) ∧
    ui.prevView cfg env = some (ui, none) ∧
    ui.moveUp cfg env v = some (ui, none) ∧
    ui.moveDown cfg env v = some (ui, none) ∧
    ∀ handler, handler = Handler.nextView ∨ handler = Handler.prevView ∨
        handler = Handler.moveUp ∨ handler = Handler.moveDown →
      ∃ ui2, ui.runHandler cfg env now v handler = some (ui2, none) ∧
        ui2.currentView = ui.currentView ∧
        ui2.subvolumesData = ui.subvolumesData ∧
        ui2.snapshotsData = ui.snapshotsData ∧
        ui2.calls = ui.calls ∧
        ui2.gui = ui.gui ∧
        ui2.isDialogVisible = true := by
  have hnext : ui.nextView cfg env = some (ui, none) := by
    unfold UI.nextView
    rw [if_pos hdlg]
  have hprev : ui.prevView cfg env = some (ui, none) := by
    unfold UI.prevView
    rw [if_pos hdlg]
  have hup : ui.moveUp cfg env v = some (ui, none) := by
    unfold UI.moveUp
    cases v with
    | none => rfl
    | some name => simp only [if_pos hdlg]
  have hdown : ui.moveDown cfg env v = some (ui, none) := by
    unfold UI.moveDown
    cases v with
    | none => rfl
    | some name => simp only [if_pos hdlg]
  refine ⟨hnext, hprev, hup, hdown, ?_⟩
  intro handler hh
  rcases hh with h | h | h | h
  · subst h; exact ⟨ui, hnext, rfl, rfl, rfl, rfl, rfl, hdlg⟩
  · subst h; exact ⟨ui, hprev, rfl, rfl, rfl, rfl, rfl, hdlg⟩
  · subst h; exact ⟨ui, hup, rfl, rfl, rfl, rfl, rfl, hdlg⟩
  · subst h; exact ⟨ui, hdown, rfl, rfl, rfl, rfl, rfl, hdlg⟩

set_option maxRecDepth 100000 in
/-- C11, with the confirmation of a deletion open and with the informational
dialog open: the right-arrow key and the down-arrow key change nothing. -/
theorem navigation_suspended_by_dialog_witness :
    (confirmingDeleteUI.gui.View viewDialog).map (fun d => d.title) =
      some "Action Confirmation" ∧
    confirmingDeleteUI.nextView scenarioConfig scenarioEnv = some (confirmingDeleteUI, none) ∧
    (infoDialogUI.gui.View viewDialog).map (fun d => d.title) = some "GRUB Update" ∧
    infoDialogUI.moveDown scenarioConfig scenarioEnv (some viewDialog) =
      some (infoDialogUI, none) :=
  ⟨by decide,
    (navigation_suspended_by_dialog scenarioConfig scenarioEnv scenarioNow confirmingDeleteUI
      (some viewDialog) (by decide)).1,
    by decide,
    (navigation_suspended_by_dialog scenarioConfig scenarioEnv scenarioNow infoDialogUI
      (some viewDialog) (by decide)).2.2.2.1⟩

/-! ## A listing without volumes -/

theorem View_Render_other (vd : ViewData) (g : Gui) (name target : String)
    (hne : target ≠ name) : (Render vd g name).View target = g.View target := by
  unfold Render
  rw [View_Fprint_other _ _ _ _ hne, View_Clear_other _ _ _ hne]

theorem updateSubvolumes_view_other (ui : UI) (subvolumes : List String) (target : String)
    (hne : target ≠ viewSubvolumes) :
    (ui.updateSubvolumes subvolumes).gui.View target = ui.gui.View target := by
  unfold UI.updateSubvolumes
  split
  · exact View_Render_other _ _ _ _ hne
  · rfl

/-- With an empty listing of volumes the snapshot step does nothing: the
cursor test `selectedSubvol < len(subvolumes)` fails. -/
theorem updateSnapshots_nil (ui : UI) (snapshots : List String) :
    ui.updateSnapshots [] snapshots = ui := by
  unfold UI.updateSnapshots
  split
  · rfl
  · have hno : ¬ (0 ≤ ui.subvolumesData.selected ∧
        ui.subvolumesData.selected < (([] : List String).length : Int)) := by
      simp only [List.length_nil]
      omega
    simp only [if_neg hno]

theorem updateDiskInfo_view_other (cfg : Config) (env : Env) (ui : UI) (target : String)
    (hne : target ≠ viewDiskInfo) :
    (ui.updateDiskInfo cfg env).gui.View target = ui.gui.View target := by
  unfold UI.updateDiskInfo
  split
  · rfl
  · split
    · exact View_Fprint_other _ _ _ _ hne
    · exact View_Fprint_other _ _ _ _ hne

/-- The snapshot information step writes to the snapshot information view
only. -/
theorem updateSnapshotInfo_view_other (cfg : Config) (env : Env) (ui ui2 : UI)
    (target : String) (hne : target ≠ viewSnapshotInfo)
    (h : ui.updateSnapshotInfo cfg env = some ui2) :
    ui2.gui.View target = ui.gui.View target := by
  unfold UI.updateSnapshotInfo at h
  by_cases hcur : ui.currentView ≠ viewSnapshots
  · rw [if_pos hcur] at h
    cases hv : ui.gui.View viewSnapshotInfo with
    | none =>
      rw [hv] at h
      rw [← Option.some.inj h]
    | some w =>
      rw [hv] at h
      rw [← Option.some.inj h]
      exact View_Clear_other _ _ _ hne
  · rw [if_neg hcur] at h
    cases hv : ui.gui.View viewSnapshotInfo with
    | none =>
      rw [hv] at h
      rw [← Option.some.inj h]
    | some w =>
      rw [hv] at h
      cases hl : env.run ui.calls (listCmd cfg.defaultBtrfsPath) with
      | error err =>
        simp only [GetBtrfsSubvolumes_error cfg env _ err ui.calls hl] at h
        rw [← Option.some.inj h]
        simp only [View_Fprint_other _ _ _ _ hne, View_Clear_other _ _ _ hne]
      | ok output =>
        simp only [GetBtrfsSubvolumes_ok cfg env _ output ui.calls hl] at h
        by_cases hs : (parseSubvolumes cfg output).2.length = 0
        · rw [if_pos hs] at h
          rw [← Option.some.inj h]
          exact View_Clear_other _ _ _ hne
        · rw [if_neg hs] at h
          by_cases hlen : ui.snapshotsData.items.length > 0
          · rw [if_pos hlen] at h
            cases hi : ViewData.index ui.snapshotsData.items ui.snapshotsData.selected with
            | none =>
              rw [hi] at h
              cases h
            | some x =>
              simp only [hi, GetBtrfsSnapshotInfo] at h
              cases hr : env.run (ui.calls ++ [listCmd cfg.defaultBtrfsPath])
                (showCmd (cfg.defaultBtrfsPath ++ "/" ++ x)) with
              | error e =>
                simp only [hr] at h
                rw [← Option.some.inj h]
                simp only [View_Fprint_other _ _ _ _ hne, View_Clear_other _ _ _ hne]
              | ok info =>
                simp only [hr] at h
                rw [← Option.some.inj h]
                simp only [View_Fprint_other _ _ _ _ hne, View_Clear_other _ _ _ hne]
          · rw [if_neg hlen] at h
            rw [← Option.some.inj h]
            exact View_Clear_other _ _ _ hne

theorem SetItems_nil (vd : ViewData) : vd.SetItems [] = ⟨[], 0⟩ := by
  have h1 := SetItems_items vd []
  have h2 := SetItems_selected vd []
  simp only [List.length_nil] at h2
  have h3 : (vd.SetItems []).selected = 0 := by omega
  cases hvd : vd.SetItems [] with
  | mk items selected =>
    rw [hvd] at h1 h3
    simp only [] at h1 h3
    rw [h1, h3]

/-- C12. When the listing succeeds and holds no volume, `UpdateViewContent`
returns with the volume list empty and its cursor at 0, and the snapshot list
exactly as before: the same items, the same cursor, hence the same selected
snapshot, and the snapshots view shows what it showed, since nothing is
written to it. The snapshot cursor is taken to be valid, as it is in every
state of a run (`Reachable_valid`), so that the call returns. -/
theorem UpdateViewContent_no_volumes (cfg : Config) (env : Env) (ui : UI) (output : String)
    (hlist : env.run ui.calls (listCmd cfg.defaultBtrfsPath) = .ok output)
    (hnone : (parseSubvolumes cfg output).1 = [])
    (hcur : ui.snapshotsData.Valid) :
    ∃ ui2, ui.UpdateViewContent cfg env = some ui2 ∧
      ui2.subvolumesData = ⟨[], 0⟩ ∧
      ui2.snapshotsData = ui.snapshotsData ∧
      ui2.snapshotsData.items = ui.snapshotsData.items ∧
      ui2.snapshotsData.selected = ui.snapshotsData.selected ∧
      ui2.snapshotsData.GetSelected = ui.snapshotsData.GetSelected ∧
      ui2.gui.View viewSnapshots = ui.gui.View viewSnapshots ∧
      ui2.currentView = ui.currentView := by
  have hstep := UpdateViewContent_ok cfg env ui output hlist
  rw [hnone, updateSnapshots_nil] at hstep
  obtain ⟨a1, a2, a3, -, -⟩ :=
    updateSubvolumes_frame { ui with calls := ui.calls ++ [listCmd cfg.defaultBtrfsPath] } []
  obtain ⟨c1, c2, c3⟩ := updateDiskInfo_frame cfg env
    (UI.updateSubvolumes { ui with calls := ui.calls ++ [listCmd cfg.defaultBtrfsPath] } [])
  obtain ⟨ui2, d1, d2, d3, d4, -⟩ := updateSnapshotInfo_frame cfg env
    ((UI.updateSubvolumes { ui with calls := ui.calls ++ [listCmd cfg.defaultBtrfsPath] }
      []).updateDiskInfo cfg env)
    (by rw [c1, a2]; exact hcur)
  have hsnap : ui2.snapshotsData = ui.snapshotsData := by rw [d2, c1, a2]
  refine ⟨ui2, ?_, ?_, hsnap, ?_, ?_, ?_, ?_, ?_⟩
  · rw [hstep]
    exact d1
  · rw [d3, c2, a1]
    exact SetItems_nil _
  · rw [hsnap]
  · rw [hsnap]
  · rw [hsnap]
  · rw [updateSnapshotInfo_view_other cfg env _ ui2 viewSnapshots (by decide) d1,
      updateDiskInfo_view_other cfg env _ viewSnapshots (by decide),
      updateSubvolumes_view_other _ _ viewSnapshots (by decide)]
  · rw [d4, c3, a3]

set_option maxRecDepth 100000 in
/-- C12, in a run: the web snapshot is listed and selected in the snapshots
pane, then the listing comes back with the two snapshots and no volume. After
the refresh the volume list is empty and the web snapshot is still listed and
selected. -/
theorem UpdateViewContent_no_volumes_witness :
    snapshotsFocusedUI.subvolumesData = ⟨["_active/web-1", "_active/db-1"], 0⟩ ∧
    ∃ ui2, snapshotsFocusedUI.UpdateViewContent scenarioConfig noVolumesEnv = some ui2 ∧
      ui2.subvolumesData = ⟨[], 0⟩ ∧
      ui2.snapshotsData = ⟨["_snapshots/web-20240101-000000"], 0⟩ ∧
      ui2.snapshotsData.GetSelected = some "_snapshots/web-20240101-000000" := by
  refine ⟨by decide, ?_⟩
  obtain ⟨ui2, h1, h2, h3, -, -, h4, -, -⟩ :=
    UpdateViewContent_no_volumes scenarioConfig noVolumesEnv snapshotsFocusedUI noVolumesListing
      rfl (by decide) (by decide)
  have hdata : snapshotsFocusedUI.snapshotsData = ⟨["_snapshots/web-20240101-000000"], 0⟩ := by
    decide
  have hget : snapshotsFocusedUI.snapshotsData.GetSelected =
      some "_snapshots/web-20240101-000000" := by decide
  exact ⟨ui2, h1, h2, h3.trans hdata, h4.trans hget⟩

end Butterfs
